import Mathlib

/-!
# GalaChain Launchpad bonding-curve engine: a shallow embedding

This file embeds the launchpad token-sale engine (sale state, bonding-curve
calculators, trade orchestrators, fee configuration) as executable Lean
definitions over exact rational arithmetic, and proves properties of the
embedded operations.

Decimal quantities (`BigNumber` / `decimal.js` values in the source) are
modelled as `ℚ`; the explicit rounding calls of the source
(`toDecimalPlaces(d, ROUND_UP)` etc.) are modelled by the `roundUpDp`,
`roundDownDp` and `roundHalfUpDp` functions below.  The transcendental
operations of the decimal library (`Decimal.pow` on the stored Euler constant
and `Decimal.ln`) are modelled by executable fixed-point approximations
(`expQ`, `lnQ`) that agree with the real functions to far more digits than the
8/9-decimal rounding steps of the engine can observe; the repository's Euler
constant `2.7182818284590452353602874713527` agrees with e to 31 digits, so
`euler.pow x` is modelled as `exp x`.

The core `Rat` operations are sealed `@[irreducible]` in Lean core, which
blocks kernel evaluation of `decide` proofs about concrete trades; they are
made semireducible here so that concrete runs of the embedded engine can be
settled by `decide`.
-/

set_option allowUnsafeReducibility true

set_option maxRecDepth 10000

attribute [local semireducible] Rat.add Rat.mul Rat.sub Rat.div Rat.inv Rat.neg

namespace Launchpad

/-! ## Executable floor and ceiling on `ℚ`

`Int.floor` on `ℚ` does not reduce in the kernel, so executable versions are
defined from the numerator and denominator (Lean's `Int` division rounds
toward negative infinity, hence `qfloor` is the floor) and bridged to the
Mathlib functions by the two lemmas that follow. -/

def qfloor (q : ℚ) : ℤ := q.num / (q.den : ℤ)

def qceil (q : ℚ) : ℤ := -((-q.num) / (q.den : ℤ))

theorem qfloor_eq (q : ℚ) : qfloor q = ⌊q⌋ := Rat.floor_def.symm

theorem qceil_eq (q : ℚ) : qceil q = ⌈q⌉ := by
  have h : qceil q = -qfloor (-q) := by
    simp [qceil, qfloor, Rat.neg_num]
  rw [h, qfloor_eq, Int.floor_neg, neg_neg]

/-! ## Fixed-point transcendental kernels (scale 10^40) -/

/-- Working scale of the fixed-point kernels: 40 fractional decimal digits. -/
def SCALE : ℤ := 10000000000000000000000000000000000000000

/-- Horner evaluation of the truncated Taylor series of `exp` (25 terms),
on integers scaled by `SCALE`.  `expHorner y 25` approximates `exp (y/SCALE)`
scaled by `SCALE` for `|y/SCALE| ≤ 1/2`. -/
def expHorner (y : ℤ) : ℕ → ℤ
  | 0 => SCALE
  | j + 1 => SCALE + y * expHorner y j / (SCALE * (25 - (j : ℤ)))

/-- Fixed-point squaring at scale `SCALE`. -/
def sqFP (a : ℤ) : ℤ := a * a / SCALE

/-- Fixed-point `exp` for a nonnegative argument scaled by `SCALE`:
the argument is divided by 32, fed to the Taylor series, and the result is
squared five times. -/
def expFP (x : ℤ) : ℤ :=
  sqFP (sqFP (sqFP (sqFP (sqFP (expHorner (x / 32) 25)))))

/-- `exp` on `ℚ`, accurate to well over 30 decimal digits on the
exponent range `[-16, 16]` used by the bonding curve. -/
def expQ (q : ℚ) : ℚ :=
  if 0 ≤ q then (expFP (qfloor (q * (SCALE : ℚ))) : ℚ) / (SCALE : ℚ)
  else (SCALE : ℚ) / (expFP (qfloor (-q * (SCALE : ℚ))) : ℚ)

/-- `ln 2` scaled by `SCALE` (40 correct fractional digits). -/
def LN2FP : ℤ := 6931471805599453094172321214581765680755

/-- Normalize a positive fixed-point value into `[3/4, 3/2)` by binary
shifts, returning the mantissa and the exponent of 2 taken out. -/
def lnNorm : ℕ → ℤ → ℤ × ℤ
  | 0, a => (a, 0)
  | fuel + 1, a =>
    if 3 * SCALE / 2 ≤ a then
      let p := lnNorm fuel (a / 2)
      (p.1, p.2 + 1)
    else if a < 3 * SCALE / 4 then
      let p := lnNorm fuel (2 * a)
      (p.1, p.2 - 1)
    else (a, 0)

/-- Horner evaluation of the odd series of `atanh` (30 terms) at `w = z²`,
fixed point at scale `SCALE`: approximates `Σ w^i / (2 i + 1)`. -/
def atanhHorner (w : ℤ) : ℕ → ℤ
  | 0 => SCALE / 61
  | j + 1 => SCALE / (2 * (29 - (j : ℤ)) + 1) + w * atanhHorner w j / SCALE

/-- Fixed-point natural logarithm of a positive value scaled by `SCALE`,
via `ln a = 2 atanh ((a-1)/(a+1)) + j ln 2`. -/
def lnFP (x : ℤ) : ℤ :=
  let p := lnNorm 300 x
  let z := (p.1 - SCALE) * SCALE / (p.1 + SCALE)
  let w := z * z / SCALE
  2 * z * atanhHorner w 30 / SCALE + p.2 * LN2FP

/-- Natural logarithm on `ℚ` (0 on non-positive inputs), accurate to well
over 30 decimal digits on the value range used by the bonding curve. -/
def lnQ (q : ℚ) : ℚ :=
  if q ≤ 0 then 0 else (lnFP (qfloor (q * (SCALE : ℚ))) : ℚ) / (SCALE : ℚ)

/-! ## Decimal rounding policy

`BigNumber`/`decimal.js` rounding modes used by the engine:
`ROUND_UP` rounds away from zero, `ROUND_DOWN` rounds toward zero,
`ROUND_HALF_UP` (the `BigNumber.decimalPlaces` default) rounds half away
from zero.  All quantities the engine rounds are nonnegative, but the
definitions are faithful for either sign. -/

/-- Round to `d` decimal places away from zero (`ROUND_UP`). -/
def roundUpDp (d : ℕ) (q : ℚ) : ℚ :=
  if 0 ≤ q then (qceil (q * 10 ^ d) : ℚ) / 10 ^ d
  else (qfloor (q * 10 ^ d) : ℚ) / 10 ^ d

/-- Round to `d` decimal places toward zero (`ROUND_DOWN`). -/
def roundDownDp (d : ℕ) (q : ℚ) : ℚ :=
  if 0 ≤ q then (qfloor (q * 10 ^ d) : ℚ) / 10 ^ d
  else (qceil (q * 10 ^ d) : ℚ) / 10 ^ d

/-- Round to `d` decimal places, halves away from zero (`ROUND_HALF_UP`). -/
def roundHalfUpDp (d : ℕ) (q : ℚ) : ℚ :=
  if 0 ≤ q then (qfloor (q * 10 ^ d + 1 / 2) : ℚ) / 10 ^ d
  else (qceil (q * 10 ^ d - 1 / 2) : ℚ) / 10 ^ d

/-- `q` is representable with `d` decimal places. -/
def isDpMultiple (d : ℕ) (q : ℚ) : Prop := ∃ z : ℤ, q = (z : ℚ) / 10 ^ d

/-! ## Curve constants (`LaunchpadSale` statics and `getBondingConstants`) -/

/-- `LaunchpadSale.MARKET_CAP = "1640985.8441726"`. -/
def MARKET_CAP : ℚ := 16409858441726 / 10 ^ 7

/-- `LaunchpadSale.BASE_PRICE = "16506671506650"`. -/
def BASE_PRICE : ℚ := 16506671506650

/-- The exponent factor `1166069000000` set by the `LaunchpadSale`
constructor and returned by `getBondingConstants`. -/
def EXPONENT_FACTOR : ℚ := 1166069000000

/-- Modelled from the spec: `getBondingConstants` lives in `chaincode/utils`,
which is not under `src/`; the spec fixes the cost formula
`(b/k) × (e^(k×(s+Δ)/D) − e^(k×s/D))` whose fixed-point scale `D`
(the `decimals` constant) must make the full-curve integral with
`b = BASE_PRICE` and `k = EXPONENT_FACTOR` equal the documented
`MARKET_CAP` for 10 million tokens sold, which pins `D = 10^18`. -/
def CURVE_DECIMALS : ℚ := 10 ^ 18

/-- `LaunchpadSale.NATIVE_TOKEN_DECIMALS = 8`. -/
def NATIVE_TOKEN_DECIMALS : ℕ := 8

/-- `LaunchpadSale.SELLING_TOKEN_DECIMALS = 9`. -/
def SELLING_TOKEN_DECIMALS : ℕ := 9

/-- Modelled from the spec: the exponent factor returned by
`getBondingConstants(adjustableSupplyMultiplier)` (in the missing
`chaincode/utils`).  Per spec §3/§8 the curve constants are scaled by the
multiplier so that market-cap economics are multiplier-invariant: with the
base price divided by `m`, invariance of `(b/k)(e^(kΔ/D) − 1)` under
`Δ ↦ m·Δ` forces `k ↦ k/m` (buying `500×m` tokens at multiplier `m` then
costs exactly what `500` tokens cost at multiplier 1). -/
def bondingExponentFactor (mult : Option ℚ) : ℚ :=
  match mult with
  | some m => if 0 < m then EXPONENT_FACTOR / m else EXPONENT_FACTOR
  | none => EXPONENT_FACTOR

/-- The base price used by `calculateTokensPurchasable`:
`BASE_PRICE / multiplier` for a positive multiplier
(`adjustableSupplyMultiplier && adjustableSupplyMultiplier > 0`),
`BASE_PRICE` otherwise. -/
def adjustedBasePrice (mult : Option ℚ) : ℚ :=
  match mult with
  | some m => if 0 < m then BASE_PRICE / m else BASE_PRICE
  | none => BASE_PRICE

/-- The supply cap used by `calculateTokensPurchasable`:
`1e7 × multiplier` when a (truthy) multiplier is set, `1e+7` otherwise. -/
def supplyCapOf (mult : Option ℚ) : ℚ :=
  match mult with
  | some m => if m ≠ 0 then 10 ^ 7 * m else 10 ^ 7
  | none => 10 ^ 7

/-! ## The sale record (`LaunchpadSale`) -/

/-- `SaleStatus`: Upcoming, Ongoing, Finished (`END`). -/
inductive SaleStatus where
  | upcoming
  | ongoing
  | finished
deriving DecidableEq, Repr

/-- `ReverseBondingCurveConfigurationChainObject`: both portions are
validated to lie in `[0, 1/2]` with `minFeePortion ≤ maxFeePortion`. -/
structure ReverseBondingCurveConfiguration where
  minFeePortion : ℚ
  maxFeePortion : ℚ
deriving DecidableEq, Repr

/-- The mutable state of a `LaunchpadSale` chain object.  The token
identity fields (`vaultAddress`, `sellingToken`, `nativeToken`,
`saleOwner`) do not affect the traded quantities and are left out; the
transfer legs refer to the two tokens of the sale through `TokenSide`. -/
structure LaunchpadSaleState where
  saleStatus : SaleStatus
  sellingTokenQuantity : ℚ
  nativeTokenQuantity : ℚ
  basePrice : ℚ
  exponentFactor : ℚ
  maxSupply : ℚ
  reverseBondingCurveConfiguration : Option ReverseBondingCurveConfiguration
  adjustableSupplyMultiplier : Option ℚ
deriving DecidableEq, Repr

/-- The `LaunchpadSale` constructor: full inventory in the vault, no native
tokens, curve constants scaled when an `adjustableSupplyMultiplier` is
given, status Upcoming when a positive start time is given. -/
def createLaunchpadSale (rbc : Option ReverseBondingCurveConfiguration)
    (saleStartTime : Option ℤ) (mult : Option ℚ) : LaunchpadSaleState :=
  { saleStatus :=
      match saleStartTime with
      | some t => if 0 < t then .upcoming else .ongoing
      | none => .ongoing
    sellingTokenQuantity :=
      match mult with
      | some m => 10 ^ 7 * m
      | none => 10 ^ 7
    nativeTokenQuantity := 0
    basePrice :=
      match mult with
      | some m => BASE_PRICE / m
      | none => BASE_PRICE
    exponentFactor := 1166069000000
    maxSupply :=
      match mult with
      | some m => 10 ^ 7 * m
      | none => 10 ^ 7
    reverseBondingCurveConfiguration := rbc
    adjustableSupplyMultiplier := mult }

/-- `LaunchpadSale.buyToken`: tokens leave the vault, native tokens come in. -/
def buyTokenUpd (sale : LaunchpadSaleState) (sellingTokenAmount nativeTokenAmount : ℚ) :
    LaunchpadSaleState :=
  { sale with
    sellingTokenQuantity := sale.sellingTokenQuantity - sellingTokenAmount
    nativeTokenQuantity := sale.nativeTokenQuantity + nativeTokenAmount }

/-- `LaunchpadSale.sellToken`: tokens come back to the vault, native tokens
leave. -/
def sellTokenUpd (sale : LaunchpadSaleState) (sellingTokenAmount nativeTokenAmount : ℚ) :
    LaunchpadSaleState :=
  { sale with
    sellingTokenQuantity := sale.sellingTokenQuantity + sellingTokenAmount
    nativeTokenQuantity := sale.nativeTokenQuantity - nativeTokenAmount }

/-- `LaunchpadSale.fetchTokensSold`: `maxSupply − sellingTokenQuantity`. -/
def fetchTokensSold (sale : LaunchpadSaleState) : ℚ :=
  sale.maxSupply - sale.sellingTokenQuantity

/-- `LaunchpadSale.fetchCirculatingSupplyProportional`:
`1 − sellingTokenQuantity / maxSupply`. -/
def fetchCirculatingSupplyProportional (sale : LaunchpadSaleState) : ℚ :=
  1 - sale.sellingTokenQuantity / sale.maxSupply

/-- `LaunchpadSale.finalizeSale`: status Finished, both balances zeroed. -/
def finalizeSaleUpd (sale : LaunchpadSaleState) : LaunchpadSaleState :=
  { sale with
    saleStatus := .finished
    sellingTokenQuantity := 0
    nativeTokenQuantity := 0 }

/-! ## Calculator results and fee helpers -/

/-- `TradeCalculationResDto` together with its `extraFees` record. -/
structure TradeCalculationRes where
  originalQuantity : ℚ
  calculatedQuantity : ℚ
  reverseBondingCurve : ℚ
  transactionFees : ℚ
deriving DecidableEq, Repr

/-- `calculateTransactionFee` (`fees.ts`, appended in
`buyExactToken.spec.ts`): the platform fee is
`tokensBeingTraded × (feeAmount ?? 0)`, rendered to 8 decimal places
rounded UP; the callers pass `launchpadFeeAddressConfiguration?.feeAmount`,
so the fee is zero when no fee configuration exists. -/
def calculateTransactionFee (amount : ℚ) (feeAmount : Option ℚ) : ℚ :=
  match feeAmount with
  | none => 0
  | some f => roundUpDp NATIVE_TOKEN_DECIMALS (amount * f)

/-! ## Bonding-curve calculators -/

/-- `callNativeTokenIn`: native cost of buying an exact token amount.
The requested amount is replaced by the whole remaining vault inventory
whenever `tokenQuantity + tokensSold` exceeds the hardcoded `1e+7`
threshold (the code compares against `1e+7`, not against the sale's
`maxSupply`); the cost is
`(basePrice/k) × (euler^(k×(s+Δ)/D) − euler^(k×s/D))`, rounded UP to 8
decimal places.  `feeAmount` is the optional platform fee rate found by
`fetchLaunchpadFeeAddress`. -/
def callNativeTokenInCalc (sale : LaunchpadSaleState) (tokenQuantity : ℚ)
    (feeAmount : Option ℚ) : TradeCalculationRes :=
  let totalTokensSold := fetchTokensSold sale
  let tokensToBuy :=
    if 10 ^ 7 < tokenQuantity + totalTokensSold then sale.sellingTokenQuantity
    else tokenQuantity
  let exponent1 := EXPONENT_FACTOR * (totalTokensSold + tokensToBuy) / CURVE_DECIMALS
  let exponent2 := EXPONENT_FACTOR * totalTokensSold / CURVE_DECIMALS
  let eResult1 := expQ exponent1
  let eResult2 := expQ exponent2
  let constantFactor := sale.basePrice / EXPONENT_FACTOR
  let differenceOfExponentials := eResult1 - eResult2
  let price := constantFactor * differenceOfExponentials
  let roundedPrice := roundUpDp 8 price
  { originalQuantity := tokensToBuy
    calculatedQuantity := roundedPrice
    reverseBondingCurve := 0
    transactionFees := calculateTransactionFee roundedPrice feeAmount }

/-- `calculateTokensPurchasable` (from `callMemeTokenOut.ts`): tokens
obtainable for a native amount.  The native input is rounded UP to the
native token's decimals before solving; the closed form
`(D/k) × ln((native×k/b) + e^(k×s/D)) − s` is rounded DOWN to the selling
token's decimals; the result is clamped to the supply cap
(`1e7 × multiplier` when a multiplier is set).  Returns
`(roundedNativeTokens, roundedResult)`. -/
def calculateTokensPurchasable (nativeTokens totalTokensSold : ℚ)
    (nativeTokenDecimals sellingTokenDecimals : ℕ) (mult : Option ℚ) : ℚ × ℚ :=
  let basePrice := adjustedBasePrice mult
  let k := bondingExponentFactor mult
  let roundedNativeTokens := roundUpDp nativeTokenDecimals nativeTokens
  let constant := roundedNativeTokens * k / basePrice
  let exponent1 := k * totalTokensSold / CURVE_DECIMALS
  let eResult1 := expQ exponent1
  let ethScaled := constant + eResult1
  let lnEthScaled := lnQ ethScaled * CURVE_DECIMALS
  let lnEthScaledBase := lnEthScaled / k
  let result := lnEthScaledBase - totalTokensSold
  let roundedResult := roundDownDp sellingTokenDecimals result
  let supplyCap := supplyCapOf mult
  let cappedResult :=
    if supplyCap < roundedResult + totalTokensSold then supplyCap - totalTokensSold
    else roundedResult
  (roundedNativeTokens, cappedResult)

/-- `callMemeTokenOut` (current revision, per-token decimals): caps the
native input at the market-cap remainder, then delegates to
`calculateTokensPurchasable`; in pre-mint mode the sale state is ignored
and the sold baseline is zero.  The platform fee is computed on
`originalQuantity` (the rounded native input). -/
def callMemeTokenOutCalc (sale : LaunchpadSaleState) (isPreMint : Bool)
    (nativeTokenQuantity : ℚ) (nativeTokenDecimals sellingTokenDecimals : ℕ)
    (feeAmount : Option ℚ) : TradeCalculationRes :=
  let nativeTokens :=
    if isPreMint then nativeTokenQuantity
    else if MARKET_CAP < nativeTokenQuantity + sale.nativeTokenQuantity then
      MARKET_CAP - sale.nativeTokenQuantity
    else nativeTokenQuantity
  let totalTokensSold := if isPreMint then 0 else fetchTokensSold sale
  let mult := if isPreMint then none else sale.adjustableSupplyMultiplier
  let p := calculateTokensPurchasable nativeTokens totalTokensSold
    nativeTokenDecimals sellingTokenDecimals mult
  { originalQuantity := p.1
    calculatedQuantity := p.2
    reverseBondingCurve := 0
    transactionFees := calculateTransactionFee p.1 feeAmount }

/-- Modelled from the spec: `callNativeTokenOut.ts` (native payout for
selling an exact token amount) is not under `src/`; §4.1 specifies the same
closed form as the buy cost, evaluated with `s' = s − Δ` as the new sold
baseline, and §4.2 directs payouts to the trader to be rounded DOWN to the
native token's decimals. -/
def callNativeTokenOutCalc (sale : LaunchpadSaleState) (tokenQuantity : ℚ)
    (feeAmount : Option ℚ) : TradeCalculationRes :=
  let totalTokensSold := fetchTokensSold sale
  let newBaseline := totalTokensSold - tokenQuantity
  let e1 := expQ (EXPONENT_FACTOR * totalTokensSold / CURVE_DECIMALS)
  let e2 := expQ (EXPONENT_FACTOR * newBaseline / CURVE_DECIMALS)
  let price := sale.basePrice / EXPONENT_FACTOR * (e1 - e2)
  let roundedPrice := roundDownDp NATIVE_TOKEN_DECIMALS price
  { originalQuantity := tokenQuantity
    calculatedQuantity := roundedPrice
    reverseBondingCurve := 0
    transactionFees := calculateTransactionFee roundedPrice feeAmount }

/-- Modelled from the spec: `callMemeTokenIn.ts` (tokens that must be sold
to withdraw an exact native amount) is not under `src/`; §4.1 specifies the
inverse form symmetric to the buy case,
`Δ = s − (D/k) × ln(e^(k×s/D) − native×k/b)`, and §4.2 directs amounts owed
by the trader to be rounded UP to the selling token's decimals. -/
def callMemeTokenInCalc (sale : LaunchpadSaleState) (nativeTokenQuantity : ℚ)
    (feeAmount : Option ℚ) : TradeCalculationRes :=
  let totalTokensSold := fetchTokensSold sale
  let e1 := expQ (EXPONENT_FACTOR * totalTokensSold / CURVE_DECIMALS)
  let inner := e1 - nativeTokenQuantity * EXPONENT_FACTOR / sale.basePrice
  let result := totalTokensSold - CURVE_DECIMALS / EXPONENT_FACTOR * lnQ inner
  let roundedResult := roundUpDp SELLING_TOKEN_DECIMALS result
  { originalQuantity := nativeTokenQuantity
    calculatedQuantity := roundedResult
    reverseBondingCurve := 0
    transactionFees := calculateTransactionFee nativeTokenQuantity feeAmount }

/-! ## Trade orchestration: environment, transfers, runs -/

/-- The parties a trade can move tokens between.  `platformFeeAddress` is
the configured `LaunchpadFeeConfig.feeAddress` (both the transaction fees
and the reverse bonding-curve fee are sent there), `saleOwner` the sale's
`saleOwner` paid at finalization. -/
inductive Party where
  | user
  | vault
  | platformFeeAddress
  | saleOwner
deriving DecidableEq, Repr

/-- The two tokens of a sale. -/
inductive TokenSide where
  | native
  | selling
deriving DecidableEq, Repr

/-- One leg handed to the external transfer service (`transferToken`). -/
structure TransferRequest where
  sender : Party
  receiver : Party
  token : TokenSide
  quantity : ℚ
deriving DecidableEq, Repr

/-- The typed error taxonomy of §7. -/
inductive LaunchpadError where
  | validationFailed
  | slippageToleranceExceeded
  | transferFailed
  | invalidDecimal
  | notFound
  | unauthorized
  | preConditionFailed
deriving DecidableEq, Repr

/-- `LaunchpadFeeConfig`: the singleton platform-fee configuration. -/
structure LaunchpadFeeConfigState where
  feeAddress : String
  feeAmount : ℚ
  authorities : List String
deriving DecidableEq, Repr

/-- `LaunchpadFinalizeFeeAllocation` (fields as used by `finalizeSale` in
`fetchLaunchpadFeeAmount.ts`; the class itself is imported from
`api/types`, not under `src/`): the optional allocation split used at
finalization. -/
structure FeeAllocation where
  platformFeePercentage : ℚ
  ownerAllocationPercentage : ℚ
  liquidityAllocationPercentage : ℚ
deriving DecidableEq, Repr

/-- The external collaborators of §6 as seen by one trade: the fee-config
singleton read, the optional finalize fee-allocation read, the
token-decimal reads, the transfer service verdicts, the buyer's balance
check, and the liquidity-pool (DEX) service availability. -/
structure Env where
  feeConfig : Option LaunchpadFeeConfigState
  feeAllocation : Option FeeAllocation
  nativeTokenDecimals : ℕ
  sellingTokenDecimals : ℕ
  memeTokenClassDecimals : ℕ
  transferOk : TransferRequest → Bool
  buyerBalanceCovers : ℚ → Bool
  poolServiceOk : Bool

/-- The optional platform fee rate (`launchpadFeeAddressConfiguration?.feeAmount`). -/
def Env.feeAmountOpt (env : Env) : Option ℚ := env.feeConfig.map (·.feeAmount)

/-- The `TradeResDto` fields the verified properties speak about. -/
structure TradeReceipt where
  inputQuantity : ℚ
  outputQuantity : ℚ
  totalFees : ℚ
  tradeType : String
  isFinalized : Bool
  totalTokenSold : ℚ
deriving DecidableEq, Repr

/-- One full run of a trade entry point: the transfer legs that were
executed (in order), the sale states persisted with `putChainObject`
(in order), and the outcome. -/
structure TradeRun where
  transfers : List TransferRequest
  writes : List LaunchpadSaleState
  outcome : Except LaunchpadError (TradeReceipt × LaunchpadSaleState)

/-- The error of a run, if it failed. -/
def TradeRun.errorOf (r : TradeRun) : Option LaunchpadError :=
  match r.outcome with
  | .error e => some e
  | .ok _ => none

/-- The receipt of a run, if it succeeded. -/
def TradeRun.receiptOf (r : TradeRun) : Option TradeReceipt :=
  match r.outcome with
  | .error _ => none
  | .ok p => some p.1

/-- The final sale state of a run, if it succeeded. -/
def TradeRun.stateOf (r : TradeRun) : Option LaunchpadSaleState :=
  match r.outcome with
  | .error _ => none
  | .ok p => some p.2

/-- `ExactTokenQuantityDto` (quantity fields only). -/
structure ExactTokenDto where
  tokenQuantity : ℚ
  expectedNativeToken : Option ℚ
  maxAcceptableReverseBondingCurveFee : Option ℚ
deriving DecidableEq, Repr

/-- `NativeTokenQuantityDto` (quantity fields only). -/
structure NativeTokenDto where
  nativeTokenQuantity : ℚ
  expectedToken : Option ℚ
  maxAcceptableReverseBondingCurveFee : Option ℚ
deriving DecidableEq, Repr

/-- Modelled from the spec: `fetchAndValidateSale` (missing
`chaincode/utils`) — a trade must target an existing, not-Finished sale;
the Finished status is terminal and further trades are rejected (§4.4). -/
def saleNotTradeable (sale : LaunchpadSaleState) : Bool :=
  sale.saleStatus = SaleStatus.finished

/-- `transferTransactionFees` (`fees.ts`, appended in
`buyExactToken.spec.ts`), used by the two buy paths: returns silently —
before any balance check — when no fee configuration exists or the fee is
not strictly positive; otherwise (the buys always pass
`nativeTokensRequired`) the caller's balance must cover principal plus fee
(`ValidationFailed` otherwise) before the fee transfer to the configured
fee address is attempted. -/
def transferTransactionFees (env : Env) (transactionFees nativeTokensRequired : ℚ) :
    Except LaunchpadError (List TransferRequest) :=
  match env.feeConfig with
  | none => .ok []
  | some _ =>
    if ¬ 0 < transactionFees then .ok []
    else if ¬ env.buyerBalanceCovers (nativeTokensRequired + transactionFees) then
      .error .validationFailed
    else
      let t : TransferRequest := ⟨.user, .platformFeeAddress, .native, transactionFees⟩
      if env.transferOk t then .ok [t] else .error .transferFailed

/-- `calculateReverseBondingCurveFee` (`fees.ts`, appended in
`buyExactToken.spec.ts`): zero without a reverse-curve configuration or
when `maxFeePortion` is zero; otherwise
`feePortion = min + circulatingSupplyProportion × (max − min)` and
`fee = nativeProceeds × feePortion` rounded UP to 8 decimals. -/
def calculateReverseBondingCurveFee (sale : LaunchpadSaleState) (nativeProceeds : ℚ) : ℚ :=
  match sale.reverseBondingCurveConfiguration with
  | none => 0
  | some c =>
    if c.maxFeePortion = 0 then 0
    else
      let feePortion := c.minFeePortion +
        fetchCirculatingSupplyProportional sale * (c.maxFeePortion - c.minFeePortion)
      roundUpDp NATIVE_TOKEN_DECIMALS (nativeProceeds * feePortion)

/-- `payReverseBondingCurveFee` (`fees.ts`, appended in
`buyExactToken.spec.ts`): computes the exit fee on the native proceeds and
returns silently when the fee is zero *or no fee configuration exists*
(`if (feeAmount.isZero() || !launchpadConfig) return`); otherwise fails
with a slippage-style error when the fee exceeds the caller's
`maxAcceptableReverseBondingCurveFee`, and then executes the fee transfer
from the caller to the configured fee address.  The two payment receipts
written to the fee ledger are outside the embedded state and not
tracked. -/
def payReverseBondingCurveFee (env : Env) (sale : LaunchpadSaleState)
    (nativeProceeds : ℚ) (maxAcceptable : Option ℚ) :
    Except LaunchpadError (List TransferRequest) :=
  let fee := calculateReverseBondingCurveFee sale nativeProceeds
  if fee = 0 ∨ env.feeConfig = none then .ok []
  else
    let exceedsMax : Bool :=
      match maxAcceptable with
      | some mx => mx < fee
      | none => false
    if exceedsMax then .error .slippageToleranceExceeded
    else
      let t : TransferRequest := ⟨.user, .platformFeeAddress, .native, fee⟩
      if env.transferOk t then .ok [t] else .error .transferFailed

/-- The observable effects of one `finalizeSale` call: the transfer legs
executed (in order) and the result — the finalized sale state to persist,
or the error that aborted the step. -/
structure FinalizeRun where
  transfers : List TransferRequest
  result : Except LaunchpadError LaunchpadSaleState

/-- `finalizeSale` (`finaliseSale.ts`, appended in
`fetchLaunchpadFeeAmount.ts` lines 58–209): reads the optional
`LaunchpadFinalizeFeeAllocation` (defaults 0.01 platform / 0.05 owner /
0.94 liquidity), requires the platform fee configuration
(`PreConditionFailed` otherwise), transfers the owner allocation and then
the platform fee out of the vault (each `nativeTokenQuantity × percentage`
rounded DOWN to 8 decimals), then drives the external DEX collaborator
(pool creation, price estimation, `addLiquidity`), burns the vault's
remaining meme-token and native balances, and finally flips the sale to
Finished, zeroing both balances via `LaunchpadSale.finalizeSale`, and
persists it.  The DEX interaction is modelled by the `poolServiceOk`
oracle (its failure aborts the trade; `ValidationFailed` stands in for the
collaborator's error), and the burns act on the vault's ledger balances,
which are outside the embedded sale state. -/
def finalizeSaleRun (env : Env) (sale : LaunchpadSaleState) : FinalizeRun :=
  if env.feeConfig.isNone then ⟨[], .error .preConditionFailed⟩ else
  let pcts : ℚ × ℚ :=
    match env.feeAllocation with
    | some fa => (fa.platformFeePercentage, fa.ownerAllocationPercentage)
    | none => (1 / 100, 5 / 100)
  let ownerXfer : TransferRequest := ⟨.vault, .saleOwner, .native,
    roundDownDp NATIVE_TOKEN_DECIMALS (sale.nativeTokenQuantity * pcts.2)⟩
  if ¬ env.transferOk ownerXfer then ⟨[], .error .transferFailed⟩ else
  let platformXfer : TransferRequest := ⟨.vault, .platformFeeAddress, .native,
    roundDownDp NATIVE_TOKEN_DECIMALS (sale.nativeTokenQuantity * pcts.1)⟩
  if ¬ env.transferOk platformXfer then ⟨[ownerXfer], .error .transferFailed⟩ else
  if ¬ env.poolServiceOk then ⟨[ownerXfer, platformXfer], .error .validationFailed⟩ else
  ⟨[ownerXfer, platformXfer], .ok (finalizeSaleUpd sale)⟩

/-! ## The four trade entry points -/

/-- `buyExactToken`: buy an exact token amount.  Mirrors the source order:
validate sale, calculate the native cost (`callNativeTokenIn`), flag
finalization when the request consumes the whole vault inventory, enforce
slippage, transfer the platform fee, move native tokens user→vault and
selling tokens vault→user, mutate and persist the sale, finalize when
flagged, and build the receipt. -/
def buyExactTokenRun (env : Env) (sale : LaunchpadSaleState) (dto : ExactTokenDto) :
    TradeRun :=
  if saleNotTradeable sale then ⟨[], [], .error .validationFailed⟩ else
  let tokensLeftInVault := sale.sellingTokenQuantity
  let calcRes := callNativeTokenInCalc sale dto.tokenQuantity env.feeAmountOpt
  let tokensToBuy := calcRes.originalQuantity
  let nativeTokensRequired := calcRes.calculatedQuantity
  let transactionFees := calcRes.transactionFees
  let isSaleFinalized : Bool := tokensLeftInVault ≤ dto.tokenQuantity
  let slippageHit : Bool :=
    match dto.expectedNativeToken with
    | some expected => expected < nativeTokensRequired
    | none => false
  if slippageHit then ⟨[], [], .error .slippageToleranceExceeded⟩ else
  match transferTransactionFees env transactionFees nativeTokensRequired with
  | .error e => ⟨[], [], .error e⟩
  | .ok feeTransfers =>
    let t1 : TransferRequest := ⟨.user, .vault, .native, nativeTokensRequired⟩
    if ¬ env.transferOk t1 then ⟨feeTransfers, [], .error .transferFailed⟩ else
    let t2 : TransferRequest := ⟨.vault, .user, .selling, tokensToBuy⟩
    if ¬ env.transferOk t2 then ⟨feeTransfers ++ [t1], [], .error .transferFailed⟩ else
    let sale1 := buyTokenUpd sale tokensToBuy nativeTokensRequired
    if isSaleFinalized then
      let fin := finalizeSaleRun env sale1
      match fin.result with
      | .error e => ⟨feeTransfers ++ [t1, t2] ++ fin.transfers, [sale1], .error e⟩
      | .ok sale2 =>
        ⟨feeTransfers ++ [t1, t2] ++ fin.transfers, [sale1, sale2],
          .ok ({ inputQuantity := nativeTokensRequired
                 outputQuantity := tokensToBuy
                 totalFees := transactionFees
                 tradeType := "Buy"
                 isFinalized := isSaleFinalized
                 totalTokenSold := fetchTokensSold sale2 }, sale2)⟩
    else
      ⟨feeTransfers ++ [t1, t2], [sale1],
        .ok ({ inputQuantity := nativeTokensRequired
               outputQuantity := tokensToBuy
               totalFees := transactionFees
               tradeType := "Buy"
               isFinalized := isSaleFinalized
               totalTokenSold := fetchTokensSold sale1 }, sale1)⟩

/-- `buyWithNative`: buy with an exact native amount.  Mirrors the source
order: validate sale, calculate tokens purchasable (`callMemeTokenOut`),
re-round the token output to the selling token class decimals
(`BigNumber.decimalPlaces`, half-up), flag finalization when the
pre-cap native request reaches the market cap, enforce slippage, transfer
the platform fee, move the two legs, mutate and persist, finalize when
flagged, and build the receipt. -/
def buyWithNativeRun (env : Env) (sale : LaunchpadSaleState) (dto : NativeTokenDto) :
    TradeRun :=
  if saleNotTradeable sale then ⟨[], [], .error .validationFailed⟩ else
  let calcRes := callMemeTokenOutCalc sale false dto.nativeTokenQuantity
    env.nativeTokenDecimals env.sellingTokenDecimals env.feeAmountOpt
  let transactionFees := calcRes.transactionFees
  let nativeTokensRequired := calcRes.originalQuantity
  let tokensToBuy := roundHalfUpDp env.memeTokenClassDecimals calcRes.calculatedQuantity
  let isSaleFinalized : Bool :=
    MARKET_CAP ≤ dto.nativeTokenQuantity + sale.nativeTokenQuantity
  let slippageHit : Bool :=
    match dto.expectedToken with
    | some expected => tokensToBuy < expected
    | none => false
  if slippageHit then ⟨[], [], .error .slippageToleranceExceeded⟩ else
  match transferTransactionFees env transactionFees nativeTokensRequired with
  | .error e => ⟨[], [], .error e⟩
  | .ok feeTransfers =>
    let t1 : TransferRequest := ⟨.user, .vault, .native, nativeTokensRequired⟩
    if ¬ env.transferOk t1 then ⟨feeTransfers, [], .error .transferFailed⟩ else
    let t2 : TransferRequest := ⟨.vault, .user, .selling, tokensToBuy⟩
    if ¬ env.transferOk t2 then ⟨feeTransfers ++ [t1], [], .error .transferFailed⟩ else
    let sale1 := buyTokenUpd sale tokensToBuy nativeTokensRequired
    if isSaleFinalized then
      let fin := finalizeSaleRun env sale1
      match fin.result with
      | .error e => ⟨feeTransfers ++ [t1, t2] ++ fin.transfers, [sale1], .error e⟩
      | .ok sale2 =>
        ⟨feeTransfers ++ [t1, t2] ++ fin.transfers, [sale1, sale2],
          .ok ({ inputQuantity := nativeTokensRequired
                 outputQuantity := tokensToBuy
                 totalFees := transactionFees
                 tradeType := "Buy"
                 isFinalized := isSaleFinalized
                 totalTokenSold := fetchTokensSold sale2 }, sale2)⟩
    else
      ⟨feeTransfers ++ [t1, t2], [sale1],
        .ok ({ inputQuantity := nativeTokensRequired
               outputQuantity := tokensToBuy
               totalFees := transactionFees
               tradeType := "Buy"
               isFinalized := isSaleFinalized
               totalTokenSold := fetchTokensSold sale1 }, sale1)⟩

/-- `sellExactToken`: sell an exact token amount.  Mirrors the source
order: validate sale, compute the native payout (`callNativeTokenOut`),
run the vault-balance guard — the source compares the *token* quantity
being sold against the vault's *native* balance (`sellExactToken.ts`
line 61) — enforce slippage, pay the reverse bonding-curve fee before
anything else moves, transfer the platform fee when a fee configuration
exists (the source guards on the fee string, which is always truthy),
move the two legs, mutate and persist, and build the receipt. -/
def sellExactTokenRun (env : Env) (sale : LaunchpadSaleState) (dto : ExactTokenDto) :
    TradeRun :=
  if saleNotTradeable sale then ⟨[], [], .error .validationFailed⟩ else
  let calcRes := callNativeTokenOutCalc sale dto.tokenQuantity env.feeAmountOpt
  let tokensBeingSold := calcRes.originalQuantity
  let nativeTokensPayout := calcRes.calculatedQuantity
  let transactionFees := calcRes.transactionFees
  let nativeTokensLeftInVault := sale.nativeTokenQuantity
  if nativeTokensLeftInVault < dto.tokenQuantity then
    ⟨[], [], .error .validationFailed⟩ else
  let slippageHit : Bool :=
    match dto.expectedNativeToken with
    | some expected => nativeTokensPayout < expected
    | none => false
  if slippageHit then ⟨[], [], .error .slippageToleranceExceeded⟩ else
  match payReverseBondingCurveFee env sale nativeTokensPayout
      dto.maxAcceptableReverseBondingCurveFee with
  | .error e => ⟨[], [], .error e⟩
  | .ok rbcTransfers =>
    match
      (match env.feeConfig with
       | some _ =>
         let t : TransferRequest := ⟨.user, .platformFeeAddress, .native, transactionFees⟩
         if env.transferOk t then Except.ok [t] else Except.error LaunchpadError.transferFailed
       | none => Except.ok [] :
       Except LaunchpadError (List TransferRequest)) with
    | .error e => ⟨rbcTransfers, [], .error e⟩
    | .ok platformTransfers =>
      let t1 : TransferRequest := ⟨.user, .vault, .selling, tokensBeingSold⟩
      if ¬ env.transferOk t1 then ⟨rbcTransfers ++ platformTransfers, [], .error .transferFailed⟩ else
      let t2 : TransferRequest := ⟨.vault, .user, .native, nativeTokensPayout⟩
      if ¬ env.transferOk t2 then
        ⟨rbcTransfers ++ platformTransfers ++ [t1], [], .error .transferFailed⟩ else
      let sale1 := sellTokenUpd sale tokensBeingSold nativeTokensPayout
      ⟨rbcTransfers ++ platformTransfers ++ [t1, t2], [sale1],
        .ok ({ inputQuantity := tokensBeingSold
               outputQuantity := nativeTokensPayout
               totalFees := transactionFees +
                 (dto.maxAcceptableReverseBondingCurveFee.getD 0)
               tradeType := "Sell"
               isFinalized := false
               totalTokenSold := fetchTokensSold sale1 }, sale1)⟩

/-- `sellWithNative`: withdraw an exact native amount.  Mirrors the source
order: validate sale, reject when the vault holds fewer native tokens than
requested, compute the tokens to sell (`callMemeTokenIn`), enforce
slippage, pay the reverse bonding-curve fee before anything else moves,
transfer the platform fee when a fee configuration exists, move the two
legs, mutate and persist, and build the receipt. -/
def sellWithNativeRun (env : Env) (sale : LaunchpadSaleState) (dto : NativeTokenDto) :
    TradeRun :=
  if saleNotTradeable sale then ⟨[], [], .error .validationFailed⟩ else
  if sale.nativeTokenQuantity < dto.nativeTokenQuantity then
    ⟨[], [], .error .validationFailed⟩ else
  let calcRes := callMemeTokenInCalc sale dto.nativeTokenQuantity env.feeAmountOpt
  let transactionFees := calcRes.transactionFees
  let tokensToSell := calcRes.calculatedQuantity
  let slippageHit : Bool :=
    match dto.expectedToken with
    | some expected => expected < tokensToSell
    | none => false
  if slippageHit then ⟨[], [], .error .slippageToleranceExceeded⟩ else
  match payReverseBondingCurveFee env sale dto.nativeTokenQuantity
      dto.maxAcceptableReverseBondingCurveFee with
  | .error e => ⟨[], [], .error e⟩
  | .ok rbcTransfers =>
    match
      (match env.feeConfig with
       | some _ =>
         let t : TransferRequest := ⟨.user, .platformFeeAddress, .native, transactionFees⟩
         if env.transferOk t then Except.ok [t] else Except.error LaunchpadError.transferFailed
       | none => Except.ok [] :
       Except LaunchpadError (List TransferRequest)) with
    | .error e => ⟨rbcTransfers, [], .error e⟩
    | .ok platformTransfers =>
      let t1 : TransferRequest := ⟨.user, .vault, .selling, tokensToSell⟩
      if ¬ env.transferOk t1 then ⟨rbcTransfers ++ platformTransfers, [], .error .transferFailed⟩ else
      let t2 : TransferRequest := ⟨.vault, .user, .native, dto.nativeTokenQuantity⟩
      if ¬ env.transferOk t2 then
        ⟨rbcTransfers ++ platformTransfers ++ [t1], [], .error .transferFailed⟩ else
      let sale1 := sellTokenUpd sale tokensToSell dto.nativeTokenQuantity
      ⟨rbcTransfers ++ platformTransfers ++ [t1, t2], [sale1],
        .ok ({ inputQuantity := tokensToSell
               outputQuantity := dto.nativeTokenQuantity
               totalFees := transactionFees +
                 (dto.maxAcceptableReverseBondingCurveFee.getD 0)
               tradeType := "Sell"
               isFinalized := false
               totalTokenSold := fetchTokensSold sale1 }, sale1)⟩

/-! ## Fee configuration (`configureLaunchpadFeeAddress`) -/

/-- `ConfigureLaunchpadFeeAddressDto`: all three fields optional;
`newFeeAmount` is validated to lie in `[0, 1]` when present. -/
structure ConfigureFeeAddressDto where
  newPlatformFeeAddress : Option String
  newFeeAmount : Option ℚ
  newAuthorities : Option (List String)
deriving DecidableEq, Repr

/-- The `@Min(0) @Max(1)` validator range of `newFeeAmount`/`feeAmount`. -/
def feeAmountInValidRange (q : ℚ) : Prop := 0 ≤ q ∧ q ≤ 1

/-- JavaScript falsiness of an optional number: absent or zero.  This is
the `!dto.newFeeAmount` test of the initial-setup guard in
`configureLaunchpadFeeAddress`. -/
def jsFalsyNumber (q : Option ℚ) : Bool :=
  match q with
  | none => true
  | some x => x = 0

/-- `configureLaunchpadFeeAddress`: validates that at least one input field
is present (`newFeeAmount` compared with `undefined` there), authorizes the
caller (curator organization, or listed in the existing configuration's
authorities), then either performs initial setup — which demands a truthy
`newPlatformFeeAddress` and a truthy (`!== 0`, because JavaScript `!x`)
`newFeeAmount` — or updates the existing configuration field-by-field with
nullish coalescing. -/
def configureLaunchpadFeeAddress (existing : Option LaunchpadFeeConfigState)
    (callerIsCuratorOrg : Bool) (callingUser : String) (dto : ConfigureFeeAddressDto) :
    Except LaunchpadError LaunchpadFeeConfigState :=
  let noFieldPresent : Bool :=
    dto.newPlatformFeeAddress.isNone &&
    (match dto.newAuthorities with
     | none => true
     | some l => l.isEmpty) &&
    dto.newFeeAmount.isNone
  if noFieldPresent then .error .validationFailed else
  let callerListed : Bool :=
    match existing with
    | some cfg => callingUser ∈ cfg.authorities
    | none => false
  if ¬ callerIsCuratorOrg ∧ ¬ callerListed then .error .unauthorized else
  match existing with
  | none =>
    if dto.newPlatformFeeAddress.isNone || jsFalsyNumber dto.newFeeAmount then
      .error .validationFailed
    else
      .ok { feeAddress := dto.newPlatformFeeAddress.getD ""
            feeAmount := dto.newFeeAmount.getD 0
            authorities := dto.newAuthorities.getD [callingUser] }
  | some cfg =>
    if callingUser ∈ cfg.authorities then
      .ok { feeAddress := dto.newPlatformFeeAddress.getD cfg.feeAddress
            feeAmount := dto.newFeeAmount.getD cfg.feeAmount
            authorities := dto.newAuthorities.getD cfg.authorities }
    else .error .unauthorized

/-! ## A fully cooperative environment for concrete runs -/

/-- A concrete environment: zero platform fee configured, GALA decimals,
every transfer accepted, pool service available. -/
def allOkEnv : Env :=
  { feeConfig := some ⟨"feeAddress", 0, ["admin"]⟩
    feeAllocation := none
    nativeTokenDecimals := 8
    sellingTokenDecimals := 9
    memeTokenClassDecimals := 9
    transferOk := fun _ => true
    buyerBalanceCovers := fun _ => true
    poolServiceOk := true }

/-! ## Rounding lemmas -/

theorem le_roundUpDp (d : ℕ) (q : ℚ) (hq : 0 ≤ q) : q ≤ roundUpDp d q := by
  rw [roundUpDp, if_pos hq, qceil_eq]
  rw [le_div_iff₀ (by positivity : (0:ℚ) < 10 ^ d)]
  exact Int.le_ceil _

theorem roundUpDp_le_of_le (d : ℕ) (q m : ℚ) (hq : q ≤ m) (hm : isDpMultiple d m) :
    roundUpDp d q ≤ m := by
  obtain ⟨z, rfl⟩ := hm
  have hpow : (0:ℚ) < 10 ^ d := by positivity
  rw [roundUpDp]
  split
  · rw [qceil_eq, div_le_div_iff₀ hpow hpow]
    have h1 : q * 10 ^ d ≤ z := by
      have h3 : q * 10 ^ d ≤ (z:ℚ) / 10 ^ d * 10 ^ d :=
        mul_le_mul_of_nonneg_right hq (le_of_lt hpow)
      have h4 : (z:ℚ) / 10 ^ d * 10 ^ d = (z:ℚ) := by field_simp
      linarith
    have h2 : (⌈q * 10 ^ d⌉ : ℚ) ≤ z := by
      exact_mod_cast Int.ceil_le.mpr (by exact_mod_cast h1)
    calc (⌈q * 10 ^ d⌉ : ℚ) * 10 ^ d ≤ (z:ℚ) * 10 ^ d := by
          exact mul_le_mul_of_nonneg_right h2 (le_of_lt hpow)
      _ = _ := rfl
  · rw [qfloor_eq]
    have h1 : (⌊q * 10 ^ d⌋ : ℚ) ≤ q * 10 ^ d := Int.floor_le _
    rw [div_le_div_iff₀ hpow hpow]
    have h2 : q * 10 ^ d ≤ (z:ℚ) := by
      have h3 : q * 10 ^ d ≤ (z:ℚ) / 10 ^ d * 10 ^ d :=
        mul_le_mul_of_nonneg_right hq (le_of_lt hpow)
      have h4 : (z:ℚ) / 10 ^ d * 10 ^ d = (z:ℚ) := by field_simp
      linarith
    nlinarith

theorem roundUpDp_isDpMultiple (d : ℕ) (q : ℚ) : isDpMultiple d (roundUpDp d q) := by
  rw [roundUpDp]
  split
  · exact ⟨qceil (q * 10 ^ d), rfl⟩
  · exact ⟨qfloor (q * 10 ^ d), rfl⟩

theorem roundUpDp_eq_self (d : ℕ) (q : ℚ) (hq : isDpMultiple d q) : roundUpDp d q = q := by
  obtain ⟨z, rfl⟩ := hq
  have hpow : (0:ℚ) < 10 ^ d := by positivity
  have hz : (z:ℚ) / 10 ^ d * 10 ^ d = (z:ℚ) := by field_simp
  rw [roundUpDp]
  split
  · rw [hz, qceil_eq, Int.ceil_intCast]
  · rw [hz, qfloor_eq, Int.floor_intCast]

theorem roundUpDp_lt_add (d : ℕ) (q : ℚ) (hq : 0 ≤ q) :
    roundUpDp d q < q + 1 / 10 ^ d := by
  have hpow : (0:ℚ) < 10 ^ d := by positivity
  rw [roundUpDp, if_pos hq, qceil_eq]
  rw [div_lt_iff₀ hpow]
  have h := Int.ceil_lt_add_one (q * 10 ^ d)
  calc (⌈q * 10 ^ d⌉ : ℚ) < q * 10 ^ d + 1 := h
    _ = (q + 1 / 10 ^ d) * 10 ^ d := by field_simp

theorem roundUpDp_nonneg (d : ℕ) (q : ℚ) (hq : 0 ≤ q) : 0 ≤ roundUpDp d q :=
  le_trans hq (le_roundUpDp d q hq)

theorem marketCap_isDpMultiple : isDpMultiple 8 MARKET_CAP := by
  refine ⟨164098584417260, ?_⟩
  norm_num [MARKET_CAP]

theorem isDpMultiple_sub (d : ℕ) (a b : ℚ) (ha : isDpMultiple d a) (hb : isDpMultiple d b) :
    isDpMultiple d (a - b) := by
  obtain ⟨x, rfl⟩ := ha
  obtain ⟨y, rfl⟩ := hb
  exact ⟨x - y, by push_cast; ring⟩

/-! ## Monotonicity of the fixed-point exponential -/

theorem expHorner_nonneg_mono (y₁ y₂ : ℤ) (hy1 : 0 ≤ y₁) (hy : y₁ ≤ y₂) :
    ∀ j : ℕ, j ≤ 25 → 0 ≤ expHorner y₁ j ∧ expHorner y₁ j ≤ expHorner y₂ j := by
  intro j
  induction j with
  | zero =>
    intro _
    exact ⟨by norm_num [expHorner, SCALE], le_refl _⟩
  | succ n ih =>
    intro hj
    obtain ⟨ih1, ih2⟩ := ih (Nat.le_of_succ_le hj)
    have hn24 : (n : ℤ) ≤ 24 := by exact_mod_cast Nat.lt_succ_iff.mp hj
    have hS : (0:ℤ) < SCALE := by norm_num [SCALE]
    have hdpos : (0:ℤ) < SCALE * (25 - (n : ℤ)) :=
      mul_pos hS (by omega)
    have hnum0 : 0 ≤ y₁ * expHorner y₁ n := mul_nonneg hy1 ih1
    have hnum : y₁ * expHorner y₁ n ≤ y₂ * expHorner y₂ n :=
      mul_le_mul hy ih2 ih1 (le_trans hy1 hy)
    have hd0 : 0 ≤ y₁ * expHorner y₁ n / (SCALE * (25 - (n : ℤ))) :=
      Int.ediv_nonneg hnum0 (le_of_lt hdpos)
    have hdle : y₁ * expHorner y₁ n / (SCALE * (25 - (n : ℤ))) ≤
        y₂ * expHorner y₂ n / (SCALE * (25 - (n : ℤ))) :=
      Int.ediv_le_ediv hdpos hnum
    simp only [expHorner]
    omega

theorem sqFP_nonneg_mono (a b : ℤ) (ha : 0 ≤ a) (hab : a ≤ b) :
    0 ≤ sqFP a ∧ sqFP a ≤ sqFP b := by
  have hS : (0:ℤ) < SCALE := by norm_num [SCALE]
  unfold sqFP
  exact ⟨Int.ediv_nonneg (mul_nonneg ha ha) (le_of_lt hS),
    Int.ediv_le_ediv hS (mul_le_mul hab hab ha (le_trans ha hab))⟩

theorem expFP_nonneg_mono (x₁ x₂ : ℤ) (hx1 : 0 ≤ x₁) (hx : x₁ ≤ x₂) :
    0 ≤ expFP x₁ ∧ expFP x₁ ≤ expFP x₂ := by
  unfold expFP
  have hy1 : 0 ≤ x₁ / 32 := Int.ediv_nonneg hx1 (by norm_num)
  have hy : x₁ / 32 ≤ x₂ / 32 := Int.ediv_le_ediv (by norm_num) hx
  have h0 := expHorner_nonneg_mono _ _ hy1 hy 25 (le_refl 25)
  have h1 := sqFP_nonneg_mono _ _ h0.1 h0.2
  have h2 := sqFP_nonneg_mono _ _ h1.1 h1.2
  have h3 := sqFP_nonneg_mono _ _ h2.1 h2.2
  have h4 := sqFP_nonneg_mono _ _ h3.1 h3.2
  exact sqFP_nonneg_mono _ _ h4.1 h4.2

/-- The fixed-point exponential is monotone on nonnegative arguments. -/
theorem expQ_mono (a b : ℚ) (ha : 0 ≤ a) (hab : a ≤ b) : expQ a ≤ expQ b := by
  have hb : 0 ≤ b := le_trans ha hab
  unfold expQ
  rw [if_pos ha, if_pos hb]
  have hS : (0:ℚ) < (SCALE : ℚ) := by norm_num [SCALE]
  have hfl : qfloor (a * (SCALE : ℚ)) ≤ qfloor (b * (SCALE : ℚ)) := by
    rw [qfloor_eq, qfloor_eq]
    exact Int.floor_le_floor (mul_le_mul_of_nonneg_right hab (le_of_lt hS))
  have hfl0 : 0 ≤ qfloor (a * (SCALE : ℚ)) := by
    rw [qfloor_eq]
    exact Int.floor_nonneg.mpr (mul_nonneg ha (le_of_lt hS))
  have h := expFP_nonneg_mono _ _ hfl0 hfl
  have hcast : (expFP (qfloor (a * (SCALE : ℚ))) : ℚ) ≤
      (expFP (qfloor (b * (SCALE : ℚ))) : ℚ) := by exact_mod_cast h.2
  gcongr

/-! ## Claim C1: the supply cap against the hardcoded 1e+7 threshold -/

/-- A sale created with `adjustableSupplyMultiplier = 0.5`:
`maxSupply = sellingTokenQuantity = 5e6`. -/
def c1Sale : LaunchpadSaleState := createLaunchpadSale none none (some (1 / 2))

/-- Buying 6e6 tokens from the fresh multiplier-0.5 sale. -/
def c1Run : TradeRun := buyExactTokenRun allOkEnv c1Sale ⟨6000000, none, none⟩

/-- C1: the claim states that for every sequence of buys, tokens sold
(`maxSupply − sellingTokenQuantity`) never exceed `maxSupply`, with
over-sized buys capped to the remaining inventory, *including* for sales
created with an `adjustableSupplyMultiplier` (`maxSupply = 1e7 × m`).
The supply-cap guard of `callNativeTokenIn` compares against the hardcoded
`1e+7`, not against the sale's `maxSupply`: on a fresh multiplier-0.5 sale
(`maxSupply = 5e6`), a single buy of 6e6 tokens is not capped
(`6e6 + 0 ≤ 1e7`), and the persisted sale state records 6e6 tokens sold —
one million more than `maxSupply`, with a negative vault inventory. -/
theorem c1_supply_cap_breached_for_fractional_multiplier :
    c1Sale.maxSupply = 5000000 ∧
    (c1Run.writes.head?.map fetchTokensSold) = some 6000000 ∧
    (c1Run.writes.head?.map (fun st => st.sellingTokenQuantity)) = some (-1000000) ∧
    (5000000 : ℚ) < 6000000 := by
  refine ⟨by norm_num [c1Sale, createLaunchpadSale], ?_, ?_, by norm_num⟩ <;> decide

/-! ## Claim C3: a full buy finalizes the sale -/

/-- Buying the whole 1e7 supply of a fresh default sale in one trade. -/
def c3Run : TradeRun :=
  buyExactTokenRun allOkEnv (createLaunchpadSale none none none) ⟨10 ^ 7, none, none⟩

/-- C3: buying `1e7` tokens in one buy-exact-tokens trade against a fresh
default sale (`maxSupply = 1e7`) consumes all inventory and finalizes the
sale in the same trade: the receipt has `isFinalized = true`, and the final
sale state has status Finished with both `sellingTokenQuantity` and
`nativeTokenQuantity` equal to 0. -/
theorem c3_full_buy_finalizes_sale :
    (c3Run.receiptOf.map TradeReceipt.isFinalized) = some true ∧
    (c3Run.stateOf.map LaunchpadSaleState.saleStatus) = some SaleStatus.finished ∧
    (c3Run.stateOf.map LaunchpadSaleState.sellingTokenQuantity) = some 0 ∧
    (c3Run.stateOf.map LaunchpadSaleState.nativeTokenQuantity) = some 0 := by
  decide

/-! ## Claim C2: the market cap

Buy-with-native enforces the market cap (proved below in general); the
buy-exact-tokens path has no market-cap logic at all, and because each
buy-exact cost is rounded UP to 8 decimals, a sequence of buy-exact trades
accumulates rounding slack above the exact curve integral.  Three buys
splitting the full supply at points chosen so that each exact cost sits
mid-cell of the 1e-8 grid push the vault's native balance one decimal unit
past `MARKET_CAP`, and the trade that passes the cap is neither capped nor
(until the inventory itself runs out) finalizing. -/

/-- First split point: 4000000.000000065 tokens. -/
def c2Delta1 : ℚ := 800000000000013 / 200000000

/-- Second split point: 3000000.000000062 tokens. -/
def c2Delta2 : ℚ := 1500000000000031 / 500000000

/-- Remaining inventory after the first two buys: 2999999.999999873. -/
def c2Delta3 : ℚ := 2999999999999873 / 1000000000

/-- Sale state after the first buy-exact trade. -/
def c2State1 : LaunchpadSaleState :=
  ((buyExactTokenRun allOkEnv (createLaunchpadSale none none none)
    ⟨c2Delta1, none, none⟩).stateOf).getD (createLaunchpadSale none none none)

/-- Sale state after the second buy-exact trade. -/
def c2State2 : LaunchpadSaleState :=
  ((buyExactTokenRun allOkEnv c2State1 ⟨c2Delta2, none, none⟩).stateOf).getD c2State1

/-- The third buy-exact trade, which takes the vault past the market cap. -/
def c2Run3 : TradeRun := buyExactTokenRun allOkEnv c2State2 ⟨c2Delta3, none, none⟩

/-- C2 counterexample: the claim states that for *every* buy operation
(buy-exact-tokens and buy-with-native) the native tokens in the vault never
exceed `MARKET_CAP`, the triggering buy being auto-capped to exactly reach
the cap.  Concretely: after two successful buy-exact trades the vault is
below the cap, yet the third buy-exact trade (of exactly the remaining
inventory) is persisted with `nativeTokenQuantity = MARKET_CAP + 1e-8`,
strictly above the cap and not equal to it — the buy-exact path performs no
market-cap capping. -/
theorem c2_buy_exact_exceeds_market_cap_counterexample :
    (buyExactTokenRun allOkEnv (createLaunchpadSale none none none)
      ⟨c2Delta1, none, none⟩).errorOf = none ∧
    (buyExactTokenRun allOkEnv c2State1 ⟨c2Delta2, none, none⟩).errorOf = none ∧
    c2State2.nativeTokenQuantity < MARKET_CAP ∧
    (c2Run3.writes.head?.map (fun st => st.nativeTokenQuantity)) =
      some (MARKET_CAP + 1 / 10 ^ 8) ∧
    MARKET_CAP < MARKET_CAP + 1 / 10 ^ 8 := by
  refine ⟨?_, ?_, ?_, ?_, by norm_num⟩ <;> decide

/-- The native amount charged by `buyWithNative` is the market-cap-capped
request, rounded UP to the native token's decimals: the first component of
`calculateTokensPurchasable` is the rounded native input. -/
theorem callMemeTokenOutCalc_originalQuantity (sale : LaunchpadSaleState)
    (n : ℚ) (nd sd : ℕ) (fo : Option ℚ) :
    (callMemeTokenOutCalc sale false n nd sd fo).originalQuantity =
      roundUpDp nd
        (if MARKET_CAP < n + sale.nativeTokenQuantity then
          MARKET_CAP - sale.nativeTokenQuantity
        else n) := rfl

/-- Inversion for a successful finalization run: the state it yields is
the finalized (status Finished, balances zeroed) sale. -/
theorem finalizeSaleRun_ok (env : Env) (s st : LaunchpadSaleState)
    (h : (finalizeSaleRun env s).result = Except.ok st) :
    st = finalizeSaleUpd s := by
  unfold finalizeSaleRun at h
  dsimp only at h
  repeat' split at h
  all_goals first
  | exact Except.noConfusion h
  | (simp only [Except.ok.injEq] at h
     exact h.symm)

/-- Every sale state persisted by `buyWithNative` is either the post-buy
state (`buyToken` applied to the rounded token output and the rounded,
market-cap-capped native input) or the finalized (zeroed) sale. -/
theorem buyWithNativeRun_writes_mem (env : Env) (sale : LaunchpadSaleState)
    (dto : NativeTokenDto) (st : LaunchpadSaleState)
    (hst : st ∈ (buyWithNativeRun env sale dto).writes) :
    st = buyTokenUpd sale
        (roundHalfUpDp env.memeTokenClassDecimals
          (callMemeTokenOutCalc sale false dto.nativeTokenQuantity
            env.nativeTokenDecimals env.sellingTokenDecimals env.feeAmountOpt).calculatedQuantity)
        (callMemeTokenOutCalc sale false dto.nativeTokenQuantity
          env.nativeTokenDecimals env.sellingTokenDecimals env.feeAmountOpt).originalQuantity ∨
    st = finalizeSaleUpd (buyTokenUpd sale
        (roundHalfUpDp env.memeTokenClassDecimals
          (callMemeTokenOutCalc sale false dto.nativeTokenQuantity
            env.nativeTokenDecimals env.sellingTokenDecimals env.feeAmountOpt).calculatedQuantity)
        (callMemeTokenOutCalc sale false dto.nativeTokenQuantity
          env.nativeTokenDecimals env.sellingTokenDecimals env.feeAmountOpt).originalQuantity) := by
  unfold buyWithNativeRun at hst
  dsimp only at hst
  repeat' split at hst
  all_goals first
  | (rename_i heqfin
     have hq1 := finalizeSaleRun_ok _ _ _ heqfin
     subst hq1
     simp_all)
  | simp_all

/-- When `buyWithNative` succeeds, the receipt charges exactly the rounded
capped native input, its finalized flag is the market-cap test on the
pre-cap request, and a cap-reaching buy leaves the sale Finished. -/
theorem buyWithNativeRun_ok (env : Env) (sale : LaunchpadSaleState)
    (dto : NativeTokenDto) (r : TradeReceipt) (st : LaunchpadSaleState)
    (h : (buyWithNativeRun env sale dto).outcome = Except.ok (r, st)) :
    r.inputQuantity = (callMemeTokenOutCalc sale false dto.nativeTokenQuantity
      env.nativeTokenDecimals env.sellingTokenDecimals env.feeAmountOpt).originalQuantity ∧
    r.isFinalized =
      decide (MARKET_CAP ≤ dto.nativeTokenQuantity + sale.nativeTokenQuantity) ∧
    (MARKET_CAP ≤ dto.nativeTokenQuantity + sale.nativeTokenQuantity →
      st.saleStatus = SaleStatus.finished) := by
  unfold buyWithNativeRun at h
  dsimp only at h
  repeat' split at h
  all_goals dsimp only at h
  all_goals first
  | exact Except.noConfusion h
  | (simp only [Except.ok.injEq, Prod.mk.injEq] at h
     obtain ⟨hr, hs⟩ := h
     first
     | (rename_i heqfin
        have hq1 := finalizeSaleRun_ok _ _ _ heqfin
        subst hq1
        subst hs
        exact ⟨by rw [← hr], by rw [← hr], fun hg => rfl⟩)
     | (subst hs
        refine ⟨by rw [← hr], by rw [← hr], fun hg => ?_⟩
        exfalso
        simp_all))

/-- C2 (amended): the market-cap invariant holds on the buy-with-native
path.  For a vault whose native balance is an 8-decimal multiple (as every
reachable balance is), every sale state persisted by `buyWithNative` has a
native balance at
most `MARKET_CAP`; and a buy whose native total would reach or pass the
cap is auto-capped to exactly reach the cap
(`inputQuantity + previous vault balance = MARKET_CAP`), reports
`isFinalized = true`, and leaves the sale Finished.  (The buy-exact-tokens
path performs no market-cap check; see the counterexample above.) -/
theorem c2_buy_with_native_respects_market_cap (env : Env)
    (sale : LaunchpadSaleState) (dto : NativeTokenDto)
    (hnd : env.nativeTokenDecimals = 8)
    (hvm : isDpMultiple 8 sale.nativeTokenQuantity) :
    (∀ st ∈ (buyWithNativeRun env sale dto).writes,
      st.nativeTokenQuantity ≤ MARKET_CAP) ∧
    (MARKET_CAP ≤ dto.nativeTokenQuantity + sale.nativeTokenQuantity →
      ∀ r st, (buyWithNativeRun env sale dto).outcome = Except.ok (r, st) →
        r.isFinalized = true ∧
        r.inputQuantity + sale.nativeTokenQuantity = MARKET_CAP ∧
        st.saleStatus = SaleStatus.finished) := by
  have hcapMult : isDpMultiple 8 (MARKET_CAP - sale.nativeTokenQuantity) :=
    isDpMultiple_sub 8 MARKET_CAP sale.nativeTokenQuantity marketCap_isDpMultiple hvm
  have hreq : (callMemeTokenOutCalc sale false dto.nativeTokenQuantity
      env.nativeTokenDecimals env.sellingTokenDecimals env.feeAmountOpt).originalQuantity =
      roundUpDp 8
        (if MARKET_CAP < dto.nativeTokenQuantity + sale.nativeTokenQuantity then
          MARKET_CAP - sale.nativeTokenQuantity
        else dto.nativeTokenQuantity) := by
    rw [callMemeTokenOutCalc_originalQuantity, hnd]
  have hkey : sale.nativeTokenQuantity + (callMemeTokenOutCalc sale false
      dto.nativeTokenQuantity env.nativeTokenDecimals env.sellingTokenDecimals
      env.feeAmountOpt).originalQuantity ≤ MARKET_CAP := by
    rw [hreq]
    by_cases hc : MARKET_CAP < dto.nativeTokenQuantity + sale.nativeTokenQuantity
    · rw [if_pos hc, roundUpDp_eq_self 8 _ hcapMult]
      linarith
    · rw [if_neg hc]
      have h2 : roundUpDp 8 dto.nativeTokenQuantity ≤
          MARKET_CAP - sale.nativeTokenQuantity :=
        roundUpDp_le_of_le 8 _ _ (by linarith) hcapMult
      linarith
  have hcapEq : MARKET_CAP ≤ dto.nativeTokenQuantity + sale.nativeTokenQuantity →
      (callMemeTokenOutCalc sale false dto.nativeTokenQuantity
        env.nativeTokenDecimals env.sellingTokenDecimals
        env.feeAmountOpt).originalQuantity + sale.nativeTokenQuantity = MARKET_CAP := by
    intro hge
    rw [hreq]
    by_cases hc : MARKET_CAP < dto.nativeTokenQuantity + sale.nativeTokenQuantity
    · rw [if_pos hc, roundUpDp_eq_self 8 _ hcapMult]
      ring
    · have heq : dto.nativeTokenQuantity = MARKET_CAP - sale.nativeTokenQuantity := by
        linarith
      rw [if_neg hc, heq, roundUpDp_eq_self 8 _ hcapMult]
      ring
  constructor
  · intro st hst
    rcases buyWithNativeRun_writes_mem env sale dto st hst with h1 | h1
    · rw [h1]
      simp only [buyTokenUpd]
      linarith [hkey]
    · rw [h1]
      simp only [finalizeSaleUpd]
      norm_num [MARKET_CAP]
  · intro hge r st h
    obtain ⟨hin, hfin, hstat⟩ := buyWithNativeRun_ok env sale dto r st h
    refine ⟨?_, ?_, hstat hge⟩
    · rw [hfin]
      simpa using hge
    · rw [hin]
      exact hcapEq hge

/-- Witness for the amended C2 theorem: a fresh default sale bought with
`MARKET_CAP + 1` native tokens in the cooperative environment. -/
theorem c2_buy_with_native_respects_market_cap_witness :
    (allOkEnv.nativeTokenDecimals = 8 ∧
      isDpMultiple 8 (createLaunchpadSale none none none).nativeTokenQuantity) ∧
    ((∀ st ∈ (buyWithNativeRun allOkEnv (createLaunchpadSale none none none)
        ⟨MARKET_CAP + 1, none, none⟩).writes,
        st.nativeTokenQuantity ≤ MARKET_CAP) ∧
      (MARKET_CAP ≤ (⟨MARKET_CAP + 1, none, none⟩ : NativeTokenDto).nativeTokenQuantity +
          (createLaunchpadSale none none none).nativeTokenQuantity →
        ∀ r st, (buyWithNativeRun allOkEnv (createLaunchpadSale none none none)
            ⟨MARKET_CAP + 1, none, none⟩).outcome = Except.ok (r, st) →
          r.isFinalized = true ∧
          r.inputQuantity + (createLaunchpadSale none none none).nativeTokenQuantity =
            MARKET_CAP ∧
          st.saleStatus = SaleStatus.finished)) :=
  ⟨⟨rfl, ⟨0, by norm_num [createLaunchpadSale]⟩⟩,
    c2_buy_with_native_respects_market_cap allOkEnv (createLaunchpadSale none none none)
      ⟨MARKET_CAP + 1, none, none⟩ rfl ⟨0, by norm_num [createLaunchpadSale]⟩⟩

/-! ## Claim C4: the buy-exact cost formula -/

/-- The cost formula of the spec, stated in its own words: with `s` tokens
already sold and `Δ` tokens bought,
`(basePrice/exponentFactor) × (e^(exponentFactor×(s+Δ)/D) − e^(exponentFactor×s/D))`. -/
def buyExactCostSpecFormula (basePrice s delta : ℚ) : ℚ :=
  basePrice / EXPONENT_FACTOR *
    (expQ (EXPONENT_FACTOR * (s + delta) / CURVE_DECIMALS) -
      expQ (EXPONENT_FACTOR * s / CURVE_DECIMALS))

/-- C4: for buy-exact-tokens, the calculated native cost equals the
spec formula evaluated at the sale's base price, the tokens already sold,
and the requested amount *after* the supply-cap adjustment
(`originalQuantity`), rounded UP to the native token's 8 decimal places. -/
theorem c4_buy_exact_cost_matches_curve_formula (sale : LaunchpadSaleState)
    (tokenQuantity : ℚ) (feeAmount : Option ℚ) :
    (callNativeTokenInCalc sale tokenQuantity feeAmount).calculatedQuantity =
      roundUpDp 8 (buyExactCostSpecFormula sale.basePrice (fetchTokensSold sale)
        ((callNativeTokenInCalc sale tokenQuantity feeAmount).originalQuantity)) := rfl

/-! ## Claim C5: the buy-with-native output formula -/

/-- The closed form of the spec, stated in its own words:
`Δ = (D/k) × ln((nativeIn×k/b) + e^(k×s/D)) − s`, with the constants
adjusted for the supply multiplier as the calculator does. -/
def tokensOutSpecFormula (nativeIn totalTokensSold : ℚ) (mult : Option ℚ) : ℚ :=
  CURVE_DECIMALS / bondingExponentFactor mult *
    lnQ (nativeIn * bondingExponentFactor mult / adjustedBasePrice mult +
      expQ (bondingExponentFactor mult * totalTokensSold / CURVE_DECIMALS)) -
  totalTokensSold

/-- When the supply cap does not bind, `calculateTokensPurchasable` returns
the up-rounded native input together with the closed form evaluated at that
rounded input, rounded DOWN to the selling token's decimals. -/
theorem calculateTokensPurchasable_uncapped (native totalTokensSold : ℚ)
    (nativeTokenDecimals sellingTokenDecimals : ℕ) (mult : Option ℚ)
    (hnocap : roundDownDp sellingTokenDecimals
        (tokensOutSpecFormula (roundUpDp nativeTokenDecimals native) totalTokensSold mult) +
        totalTokensSold ≤ supplyCapOf mult) :
    calculateTokensPurchasable native totalTokensSold
        nativeTokenDecimals sellingTokenDecimals mult =
      (roundUpDp nativeTokenDecimals native,
        roundDownDp sellingTokenDecimals
          (tokensOutSpecFormula (roundUpDp nativeTokenDecimals native)
            totalTokensSold mult)) := by
  unfold calculateTokensPurchasable
  have hform : lnQ (roundUpDp nativeTokenDecimals native * bondingExponentFactor mult /
        adjustedBasePrice mult +
        expQ (bondingExponentFactor mult * totalTokensSold / CURVE_DECIMALS)) *
        CURVE_DECIMALS / bondingExponentFactor mult - totalTokensSold =
      tokensOutSpecFormula (roundUpDp nativeTokenDecimals native) totalTokensSold mult := by
    unfold tokensOutSpecFormula
    ring
  dsimp only
  rw [hform, if_neg (not_lt.mpr hnocap)]

/-- C5: for buy-with-native, the native input is rounded UP to the native
token's decimal limit *before* solving, and (when the supply cap does not
bind) the token output is the closed form evaluated at the rounded native
input, rounded DOWN to the selling token's decimal limit. -/
theorem c5_buy_with_native_output_formula (native totalTokensSold : ℚ)
    (nativeTokenDecimals sellingTokenDecimals : ℕ) (mult : Option ℚ)
    (hnocap : roundDownDp sellingTokenDecimals
        (tokensOutSpecFormula (roundUpDp nativeTokenDecimals native) totalTokensSold mult) +
        totalTokensSold ≤ supplyCapOf mult) :
    calculateTokensPurchasable native totalTokensSold
        nativeTokenDecimals sellingTokenDecimals mult =
      (roundUpDp nativeTokenDecimals native,
        roundDownDp sellingTokenDecimals
          (tokensOutSpecFormula (roundUpDp nativeTokenDecimals native)
            totalTokensSold mult)) :=
  calculateTokensPurchasable_uncapped native totalTokensSold
    nativeTokenDecimals sellingTokenDecimals mult hnocap

/-- Witness for C5: buying with 1 native token against a fresh default
sale, where the supply cap is far from binding. -/
theorem c5_buy_with_native_output_formula_witness :
    (roundDownDp 9 (tokensOutSpecFormula (roundUpDp 8 1) 0 none) + 0 ≤ supplyCapOf none) ∧
    calculateTokensPurchasable 1 0 8 9 none =
      (roundUpDp 8 1, roundDownDp 9 (tokensOutSpecFormula (roundUpDp 8 1) 0 none)) :=
  ⟨by decide, c5_buy_with_native_output_formula 1 0 8 9 none (by decide)⟩

/-! ## Claim C6: round-trip consistency of the two buy calculators

The claim asserts that for any native amount `n`, feeding the token output
of tokens-out-for-native-in(`n`) back into native-in-for-tokens-out yields
at most `n`.  Because the native input is first rounded UP to 8 decimals
and the cost of the slightly down-rounded token output then rounds back UP
to that same 8-decimal value, an input with a ninth decimal digit comes
back strictly larger than itself. -/

/-- A native input with 9 decimal places: `1.000000005`. -/
def c6Native : ℚ := 1000000005 / 10 ^ 9

/-- Token output of the buy-with-native calculator for `c6Native` against
a fresh default sale. -/
def c6TokensOut : ℚ :=
  (callMemeTokenOutCalc (createLaunchpadSale none none none) false c6Native
    8 9 none).calculatedQuantity

/-- Native cost of buying exactly `c6TokensOut` against the same fresh
sale. -/
def c6Cost : ℚ :=
  (callNativeTokenInCalc (createLaunchpadSale none none none) c6TokensOut
    none).calculatedQuantity

/-- C6 counterexample: composing the two calculators on the fresh default
sale at `n = 1.000000005` yields `1.00000001 > n` — the claimed bound
`value ≤ n` fails (while the one-decimal-unit discrepancy bound does
hold: the excess is half a unit at 8 decimals). -/
theorem c6_round_trip_exceeds_input_counterexample :
    c6Cost = 100000001 / 10 ^ 8 ∧
    c6Native < c6Cost ∧
    c6Cost ≤ c6Native + 1 / 10 ^ 8 := by
  refine ⟨?_, ?_, ?_⟩ <;> decide

/-- C6 (amended): for a sale without a supply multiplier at the standard
base price (for multiplier sales the two calculators use *different*
exponent factors — `callNativeTokenIn` does not multiplier-adjust its
constants while `callMemeTokenOut` does — so the composition claim is only
meaningful there), the composed value never exceeds the UP-ROUNDED native
input `roundUpDp 8 n` — hence never exceeds `n` itself whenever `n` is
already at the native token's 8-decimal precision — and the discrepancy
from `n` is at most one decimal unit at the native token's precision.
The solver-accuracy facts the bound rests on are the two hypotheses `h1`
and `h2`: the fixed-point exponential of the curve at the down-rounded
token output stays within the rounded native input (`h1`), and the
down-rounding forfeits at most one 8-decimal unit of native value (`h2`).
Both are decidable at any concrete input and are discharged by `decide`
in the witness below at two inputs; the remaining monotonicity of the
curve exponential is proved in general (`expQ_mono`), given that the sale
has nonnegative tokens sold (`hs`) and the solver returned a nonnegative
token amount (`hd`). -/
theorem c6_round_trip_bounded (sale : LaunchpadSaleState) (n : ℚ)
    (feeOut feeIn : Option ℚ)
    (hmult : sale.adjustableSupplyMultiplier = none)
    (hbp : sale.basePrice = BASE_PRICE)
    (hn : 0 ≤ n)
    (hmc : ¬ MARKET_CAP < n + sale.nativeTokenQuantity)
    (hnocap : roundDownDp 9 (tokensOutSpecFormula (roundUpDp 8 n)
        (fetchTokensSold sale) none) + fetchTokensSold sale ≤ 10 ^ 7)
    (hs : 0 ≤ fetchTokensSold sale)
    (hd : 0 ≤ roundDownDp 9 (tokensOutSpecFormula (roundUpDp 8 n)
        (fetchTokensSold sale) none))
    (h1 : expQ (EXPONENT_FACTOR * (fetchTokensSold sale +
        roundDownDp 9 (tokensOutSpecFormula (roundUpDp 8 n) (fetchTokensSold sale) none)) /
        CURVE_DECIMALS) ≤
      roundUpDp 8 n * EXPONENT_FACTOR / BASE_PRICE +
        expQ (EXPONENT_FACTOR * fetchTokensSold sale / CURVE_DECIMALS))
    (h2 : roundUpDp 8 n * EXPONENT_FACTOR / BASE_PRICE +
        expQ (EXPONENT_FACTOR * fetchTokensSold sale / CURVE_DECIMALS) -
        expQ (EXPONENT_FACTOR * (fetchTokensSold sale +
          roundDownDp 9 (tokensOutSpecFormula (roundUpDp 8 n) (fetchTokensSold sale) none)) /
          CURVE_DECIMALS) ≤
      EXPONENT_FACTOR / BASE_PRICE * (1 / 10 ^ 8)) :
    (callNativeTokenInCalc sale
        ((callMemeTokenOutCalc sale false n 8 9 feeOut).calculatedQuantity)
        feeIn).calculatedQuantity ≤ roundUpDp 8 n ∧
    n - 1 / 10 ^ 8 ≤ (callNativeTokenInCalc sale
        ((callMemeTokenOutCalc sale false n 8 9 feeOut).calculatedQuantity)
        feeIn).calculatedQuantity ∧
    (isDpMultiple 8 n → (callNativeTokenInCalc sale
        ((callMemeTokenOutCalc sale false n 8 9 feeOut).calculatedQuantity)
        feeIn).calculatedQuantity ≤ n) := by
  have htok : (callMemeTokenOutCalc sale false n 8 9 feeOut).calculatedQuantity =
      roundDownDp 9 (tokensOutSpecFormula (roundUpDp 8 n) (fetchTokensSold sale) none) := by
    unfold callMemeTokenOutCalc
    dsimp only
    rw [hmult]
    simp only [Bool.false_eq_true, if_false]
    rw [if_neg hmc,
      calculateTokensPurchasable_uncapped n (fetchTokensSold sale) 8 9 none
        (by simpa [supplyCapOf] using hnocap)]
  rw [htok]
  set delta := roundDownDp 9 (tokensOutSpecFormula (roundUpDp 8 n)
    (fetchTokensSold sale) none) with hdelta
  have hcost : (callNativeTokenInCalc sale delta feeIn).calculatedQuantity =
      roundUpDp 8 (BASE_PRICE / EXPONENT_FACTOR *
        (expQ (EXPONENT_FACTOR * (fetchTokensSold sale + delta) / CURVE_DECIMALS) -
          expQ (EXPONENT_FACTOR * fetchTokensSold sale / CURVE_DECIMALS))) := by
    unfold callNativeTokenInCalc
    dsimp only
    rw [if_neg (not_lt.mpr (by linarith [hnocap])), hbp]
  rw [hcost]
  set e1 := expQ (EXPONENT_FACTOR * (fetchTokensSold sale + delta) / CURVE_DECIMALS)
  set e2 := expQ (EXPONENT_FACTOR * fetchTokensSold sale / CURVE_DECIMALS)
  set costExact := BASE_PRICE / EXPONENT_FACTOR * (e1 - e2) with hce
  have hK0 : (0:ℚ) ≤ EXPONENT_FACTOR := by norm_num [EXPONENT_FACTOR]
  have hD0 : (0:ℚ) < CURVE_DECIMALS := by norm_num [CURVE_DECIMALS]
  have h0 : e2 ≤ e1 := by
    apply expQ_mono
    · exact div_nonneg (mul_nonneg hK0 hs) (le_of_lt hD0)
    · have hmono : EXPONENT_FACTOR * fetchTokensSold sale ≤
          EXPONENT_FACTOR * (fetchTokensSold sale + delta) :=
        mul_le_mul_of_nonneg_left (by linarith) hK0
      rw [div_eq_mul_inv, div_eq_mul_inv]
      exact mul_le_mul_of_nonneg_right hmono (inv_nonneg.mpr (le_of_lt hD0))
  have hBpos : (0:ℚ) < BASE_PRICE := by norm_num [BASE_PRICE]
  have hKpos : (0:ℚ) < EXPONENT_FACTOR := by norm_num [EXPONENT_FACTOR]
  have hBKpos : (0:ℚ) < BASE_PRICE / EXPONENT_FACTOR := div_pos hBpos hKpos
  have hid : BASE_PRICE / EXPONENT_FACTOR *
      (roundUpDp 8 n * EXPONENT_FACTOR / BASE_PRICE) = roundUpDp 8 n := by
    field_simp
    ring
  have k1 : costExact ≤ roundUpDp 8 n := by
    have hdiff : e1 - e2 ≤ roundUpDp 8 n * EXPONENT_FACTOR / BASE_PRICE := by
      linarith [h1]
    calc costExact ≤ BASE_PRICE / EXPONENT_FACTOR *
          (roundUpDp 8 n * EXPONENT_FACTOR / BASE_PRICE) :=
        mul_le_mul_of_nonneg_left hdiff (le_of_lt hBKpos)
      _ = roundUpDp 8 n := hid
  have k2 : roundUpDp 8 n - 1 / 10 ^ 8 ≤ costExact := by
    have hdiff : roundUpDp 8 n * EXPONENT_FACTOR / BASE_PRICE -
        EXPONENT_FACTOR / BASE_PRICE * (1 / 10 ^ 8) ≤ e1 - e2 := by
      linarith [h2]
    have hmul := mul_le_mul_of_nonneg_left hdiff (le_of_lt hBKpos)
    have hid2 : BASE_PRICE / EXPONENT_FACTOR *
        (roundUpDp 8 n * EXPONENT_FACTOR / BASE_PRICE -
          EXPONENT_FACTOR / BASE_PRICE * (1 / 10 ^ 8)) =
        roundUpDp 8 n - 1 / 10 ^ 8 := by
      field_simp
      ring
    linarith [hmul, hid2.symm.le, hid2.le]
  have k3 : 0 ≤ costExact := by
    have : (0:ℚ) ≤ e1 - e2 := by linarith [h0]
    positivity
  refine ⟨?_, ?_, ?_⟩
  · exact roundUpDp_le_of_le 8 costExact (roundUpDp 8 n) k1 (roundUpDp_isDpMultiple 8 n)
  · have hup := le_roundUpDp 8 costExact k3
    have hnn : n ≤ roundUpDp 8 n := le_roundUpDp 8 n hn
    linarith
  · intro hmul8
    have heqn : roundUpDp 8 n = n := roundUpDp_eq_self 8 n hmul8
    refine roundUpDp_le_of_le 8 costExact n ?_ hmul8
    rw [heqn] at k1
    exact k1

/-- Witness for the amended C6 theorem: the fresh default sale with
`n = 1` and with `n = 5/2` native tokens; the two solver-accuracy
hypotheses and the sign conditions are checked by `decide` at both
inputs. -/
theorem c6_round_trip_bounded_witness :
    ((createLaunchpadSale none none none).adjustableSupplyMultiplier = none ∧
      ¬ MARKET_CAP < 1 + (createLaunchpadSale none none none).nativeTokenQuantity) ∧
    ((callNativeTokenInCalc (createLaunchpadSale none none none)
        ((callMemeTokenOutCalc (createLaunchpadSale none none none) false 1 8 9
          none).calculatedQuantity) none).calculatedQuantity ≤ roundUpDp 8 1 ∧
      (1:ℚ) - 1 / 10 ^ 8 ≤ (callNativeTokenInCalc (createLaunchpadSale none none none)
        ((callMemeTokenOutCalc (createLaunchpadSale none none none) false 1 8 9
          none).calculatedQuantity) none).calculatedQuantity ∧
      (isDpMultiple 8 1 → (callNativeTokenInCalc (createLaunchpadSale none none none)
        ((callMemeTokenOutCalc (createLaunchpadSale none none none) false 1 8 9
          none).calculatedQuantity) none).calculatedQuantity ≤ 1)) ∧
    ((callNativeTokenInCalc (createLaunchpadSale none none none)
        ((callMemeTokenOutCalc (createLaunchpadSale none none none) false (5/2) 8 9
          none).calculatedQuantity) none).calculatedQuantity ≤ roundUpDp 8 (5/2) ∧
      (5/2:ℚ) - 1 / 10 ^ 8 ≤ (callNativeTokenInCalc (createLaunchpadSale none none none)
        ((callMemeTokenOutCalc (createLaunchpadSale none none none) false (5/2) 8 9
          none).calculatedQuantity) none).calculatedQuantity ∧
      (isDpMultiple 8 (5/2) → (callNativeTokenInCalc (createLaunchpadSale none none none)
        ((callMemeTokenOutCalc (createLaunchpadSale none none none) false (5/2) 8 9
          none).calculatedQuantity) none).calculatedQuantity ≤ 5/2)) :=
  ⟨⟨rfl, by decide⟩,
    c6_round_trip_bounded (createLaunchpadSale none none none) 1 none none rfl rfl
      (by norm_num) (by decide) (by decide) (by decide) (by decide) (by decide)
      (by decide),
    c6_round_trip_bounded (createLaunchpadSale none none none) (5/2) none none rfl rfl
      (by norm_num) (by decide) (by decide) (by decide) (by decide) (by decide)
      (by decide)⟩

/-! ## Claim C7: slippage rejection before any mutation -/

/-- C7: a buy-exact-tokens request whose `expectedNativeToken` is strictly
below the required native cost fails with `SlippageToleranceExceeded`, and
nothing has been transferred or persisted when it does: the run's transfer
list and write list are both empty. -/
theorem c7_slippage_rejected_before_mutation (env : Env)
    (sale : LaunchpadSaleState) (dto : ExactTokenDto) (expected : ℚ)
    (hstatus : sale.saleStatus ≠ SaleStatus.finished)
    (hexp : dto.expectedNativeToken = some expected)
    (hlt : expected < (callNativeTokenInCalc sale dto.tokenQuantity
      env.feeAmountOpt).calculatedQuantity) :
    (buyExactTokenRun env sale dto).errorOf =
      some LaunchpadError.slippageToleranceExceeded ∧
    (buyExactTokenRun env sale dto).transfers = [] ∧
    (buyExactTokenRun env sale dto).writes = [] := by
  have h1 : saleNotTradeable sale = false := by
    simp [saleNotTradeable, hstatus]
  have h2 : decide (expected < (callNativeTokenInCalc sale dto.tokenQuantity
      env.feeAmountOpt).calculatedQuantity) = true := by
    simpa using hlt
  unfold buyExactTokenRun
  dsimp only
  simp only [h1, Bool.false_eq_true, if_false, hexp, h2, if_true]
  refine ⟨?_, ?_, ?_⟩ <;> first | rfl | trivial

/-- Witness for C7: a fresh default sale, buying 500 tokens with
`expectedNativeToken = 0`, strictly below the true cost `0.00825575`. -/
theorem c7_slippage_rejected_before_mutation_witness :
    ((createLaunchpadSale none none none).saleStatus ≠ SaleStatus.finished ∧
      (0:ℚ) < (callNativeTokenInCalc (createLaunchpadSale none none none) 500
        allOkEnv.feeAmountOpt).calculatedQuantity) ∧
    ((buyExactTokenRun allOkEnv (createLaunchpadSale none none none)
        ⟨500, some 0, none⟩).errorOf = some LaunchpadError.slippageToleranceExceeded ∧
      (buyExactTokenRun allOkEnv (createLaunchpadSale none none none)
        ⟨500, some 0, none⟩).transfers = [] ∧
      (buyExactTokenRun allOkEnv (createLaunchpadSale none none none)
        ⟨500, some 0, none⟩).writes = []) :=
  ⟨⟨by decide, by decide⟩,
    c7_slippage_rejected_before_mutation allOkEnv (createLaunchpadSale none none none)
      ⟨500, some 0, none⟩ 0 (by decide) rfl (by decide)⟩

/-! ## Claim C8: the reverse bonding-curve fee moves before the proceeds -/

/-- Inversion for a successful reverse-fee payment: either the fee is zero
or no fee configuration exists and nothing moved, or the fee transfer to
the configured fee address was executed and is the only transfer of the
step. -/
theorem payReverseBondingCurveFee_ok (env : Env) (sale : LaunchpadSaleState)
    (proceeds : ℚ) (maxAcc : Option ℚ) (ts : List TransferRequest)
    (h : payReverseBondingCurveFee env sale proceeds maxAcc = Except.ok ts) :
    ((calculateReverseBondingCurveFee sale proceeds = 0 ∨ env.feeConfig = none) ∧
      ts = []) ∨
    (calculateReverseBondingCurveFee sale proceeds ≠ 0 ∧ env.feeConfig ≠ none ∧
      env.transferOk ⟨Party.user, Party.platformFeeAddress, TokenSide.native,
        calculateReverseBondingCurveFee sale proceeds⟩ = true ∧
      ts = [⟨Party.user, Party.platformFeeAddress, TokenSide.native,
        calculateReverseBondingCurveFee sale proceeds⟩]) := by
  unfold payReverseBondingCurveFee at h
  dsimp only at h
  split at h
  · rename_i hskip
    simp only [Except.ok.injEq] at h
    exact Or.inl ⟨hskip, h.symm⟩
  · rename_i hskip
    push_neg at hskip
    split at h
    · exact Except.noConfusion h
    · split at h
      · right
        rename_i hokT
        simp only [Except.ok.injEq] at h
        exact ⟨hskip.1, hskip.2, hokT, h.symm⟩
      · exact Except.noConfusion h

/-- When the fee is non-zero, a fee configuration exists, and the transfer
service rejects the fee transfer, the reverse-fee payment step never
succeeds. -/
theorem payReverseBondingCurveFee_feeFail (env : Env) (sale : LaunchpadSaleState)
    (proceeds : ℚ) (maxAcc : Option ℚ) (ts : List TransferRequest)
    (hfee : calculateReverseBondingCurveFee sale proceeds ≠ 0)
    (hcfg : env.feeConfig ≠ none)
    (hbad : env.transferOk ⟨Party.user, Party.platformFeeAddress, TokenSide.native,
      calculateReverseBondingCurveFee sale proceeds⟩ = false) :
    payReverseBondingCurveFee env sale proceeds maxAcc ≠ Except.ok ts := by
  intro h
  rcases payReverseBondingCurveFee_ok env sale proceeds maxAcc ts h with h1 | h1
  · rcases h1.1 with h2 | h2
    · exact hfee h2
    · exact hcfg h2
  · rw [h1.2.2.1] at hbad
    simp at hbad

/-- Fee-before-proceeds for `sellExactToken`: when the computed reverse
bonding-curve fee is non-zero and a fee configuration exists, a successful
run executes the fee transfer first and the vault→seller proceeds transfer
strictly later; and if the transfer service rejects the fee transfer, the
run fails and no transfer out of the vault is ever executed. -/
theorem sellExactTokenRun_fee_ordering (env : Env) (sale : LaunchpadSaleState)
    (dto : ExactTokenDto) :
    (calculateReverseBondingCurveFee sale ((callNativeTokenOutCalc sale dto.tokenQuantity
        env.feeAmountOpt).calculatedQuantity) ≠ 0 →
      env.feeConfig ≠ none →
      (sellExactTokenRun env sale dto).errorOf = none →
      ∃ rest, (sellExactTokenRun env sale dto).transfers =
        ⟨Party.user, Party.platformFeeAddress, TokenSide.native,
          calculateReverseBondingCurveFee sale ((callNativeTokenOutCalc sale
            dto.tokenQuantity env.feeAmountOpt).calculatedQuantity)⟩ :: rest ∧
        (⟨Party.vault, Party.user, TokenSide.native,
          (callNativeTokenOutCalc sale dto.tokenQuantity
            env.feeAmountOpt).calculatedQuantity⟩ : TransferRequest) ∈ rest) ∧
    (calculateReverseBondingCurveFee sale ((callNativeTokenOutCalc sale dto.tokenQuantity
        env.feeAmountOpt).calculatedQuantity) ≠ 0 →
      env.feeConfig ≠ none →
      env.transferOk ⟨Party.user, Party.platformFeeAddress, TokenSide.native,
        calculateReverseBondingCurveFee sale ((callNativeTokenOutCalc sale
          dto.tokenQuantity env.feeAmountOpt).calculatedQuantity)⟩ = false →
      (sellExactTokenRun env sale dto).errorOf ≠ none ∧
      ∀ t ∈ (sellExactTokenRun env sale dto).transfers, t.sender ≠ Party.vault) := by
  unfold sellExactTokenRun
  dsimp only
  repeat' split
  all_goals refine ⟨fun hfee hcfg hok => ?_, fun hfee hcfg hbad => ?_⟩
  all_goals try simp only [TradeRun.errorOf] at hok
  all_goals try exact Option.noConfusion hok
  all_goals try (refine ⟨?_, ?_⟩ <;> simp [TradeRun.errorOf])
  all_goals try (exfalso
                 apply payReverseBondingCurveFee_feeFail env sale _ _ _ hfee hcfg hbad
                 assumption)
  all_goals rcases payReverseBondingCurveFee_ok env sale _ _ _ (by assumption) with hc | hc
  all_goals first
  | (rcases hc.1 with h2 | h2
     · exact absurd h2 hfee
     · exact absurd h2 hcfg)
  | (rw [hc.2.2.2]
     exact ⟨_, rfl, by simp⟩)

/-- Fee-before-proceeds for `sellWithNative`: same property as for
`sellExactToken`, with the reverse bonding-curve fee computed on the exact
native amount being withdrawn. -/
theorem sellWithNativeRun_fee_ordering (env : Env) (sale : LaunchpadSaleState)
    (dto : NativeTokenDto) :
    (calculateReverseBondingCurveFee sale dto.nativeTokenQuantity ≠ 0 →
      env.feeConfig ≠ none →
      (sellWithNativeRun env sale dto).errorOf = none →
      ∃ rest, (sellWithNativeRun env sale dto).transfers =
        ⟨Party.user, Party.platformFeeAddress, TokenSide.native,
          calculateReverseBondingCurveFee sale dto.nativeTokenQuantity⟩ :: rest ∧
        (⟨Party.vault, Party.user, TokenSide.native,
          dto.nativeTokenQuantity⟩ : TransferRequest) ∈ rest) ∧
    (calculateReverseBondingCurveFee sale dto.nativeTokenQuantity ≠ 0 →
      env.feeConfig ≠ none →
      env.transferOk ⟨Party.user, Party.platformFeeAddress, TokenSide.native,
        calculateReverseBondingCurveFee sale dto.nativeTokenQuantity⟩ = false →
      (sellWithNativeRun env sale dto).errorOf ≠ none ∧
      ∀ t ∈ (sellWithNativeRun env sale dto).transfers, t.sender ≠ Party.vault) := by
  unfold sellWithNativeRun
  dsimp only
  repeat' split
  all_goals refine ⟨fun hfee hcfg hok => ?_, fun hfee hcfg hbad => ?_⟩
  all_goals try simp only [TradeRun.errorOf] at hok
  all_goals try exact Option.noConfusion hok
  all_goals try (refine ⟨?_, ?_⟩ <;> simp [TradeRun.errorOf])
  all_goals try (exfalso
                 apply payReverseBondingCurveFee_feeFail env sale _ _ _ hfee hcfg hbad
                 assumption)
  all_goals rcases payReverseBondingCurveFee_ok env sale _ _ _ (by assumption) with hc | hc
  all_goals first
  | (rcases hc.1 with h2 | h2
     · exact absurd h2 hfee
     · exact absurd h2 hcfg)
  | (rw [hc.2.2.2]
     exact ⟨_, rfl, by simp⟩)

/-- Sale for the C8 scenarios: reverse bonding-curve fee portions fixed at
1/10, 500 tokens already sold, ample native tokens recorded in the vault. -/
def c8Sale : LaunchpadSaleState :=
  { createLaunchpadSale (some ⟨1/10, 1/10⟩) none none with
      sellingTokenQuantity := 10 ^ 7 - 500
      nativeTokenQuantity := 1000 }

/-- Sell-exact dto for the C8 scenarios: sell 100 tokens, no slippage
bound. -/
def c8DtoE : ExactTokenDto := ⟨100, none, none⟩

/-- Sell-with-native dto for the C8 scenarios: withdraw 0.1 native. -/
def c8DtoN : NativeTokenDto := ⟨1/10, none, none⟩

/-- The cooperative environment with no platform fee configuration. -/
def c8NoCfgEnv : Env := { allOkEnv with feeConfig := none }

/-- An environment whose transfer service rejects exactly the non-zero
transfers from the caller to the configured fee address — in the sell
scenarios below that is the reverse bonding-curve fee transfer (the
platform transaction fee there is zero). -/
def c8BadEnv : Env :=
  { allOkEnv with transferOk := fun t =>
      match t.sender, t.receiver with
      | Party.user, Party.platformFeeAddress => decide (t.quantity = 0)
      | _, _ => true }

/-- C8 counterexample: the claim asserts that *every* sell producing a
non-zero reverse bonding-curve fee attempts the fee transfer before the
proceeds transfer.  `payReverseBondingCurveFee` returns silently when no
platform fee configuration exists (`!launchpadConfig`): on `c8Sale` the
computed fee is non-zero, yet under an environment without a fee
configuration the sell succeeds and its transfer list holds exactly the
two trade legs — the proceeds leave the vault with no fee transfer ever
attempted. -/
theorem c8_fee_skipped_without_config_counterexample :
    calculateReverseBondingCurveFee c8Sale ((callNativeTokenOutCalc c8Sale
      c8DtoE.tokenQuantity c8NoCfgEnv.feeAmountOpt).calculatedQuantity) ≠ 0 ∧
    (sellExactTokenRun c8NoCfgEnv c8Sale c8DtoE).errorOf = none ∧
    (sellExactTokenRun c8NoCfgEnv c8Sale c8DtoE).transfers =
      [⟨Party.user, Party.vault, TokenSide.selling, 100⟩,
       ⟨Party.vault, Party.user, TokenSide.native,
         (callNativeTokenOutCalc c8Sale c8DtoE.tokenQuantity
           c8NoCfgEnv.feeAmountOpt).calculatedQuantity⟩] := by
  refine ⟨?_, ?_, ?_⟩ <;> decide

/-- C8 (amended): in every sell — sell-exact-tokens or sell-with-native —
whose reverse bonding-curve fee is non-zero, *provided a platform fee
configuration exists*, a successful run records the fee transfer strictly
before the vault→seller proceeds transfer; and when the transfer service
rejects the fee transfer, the run fails with no transfer out of the vault
at all, so the fee is never funded from the proceeds.  (Without a fee
configuration the fee is silently skipped; see the counterexample.) -/
theorem c8_reverse_fee_before_proceeds (env : Env) (sale : LaunchpadSaleState)
    (dtoE : ExactTokenDto) (dtoN : NativeTokenDto) :
    ((calculateReverseBondingCurveFee sale ((callNativeTokenOutCalc sale dtoE.tokenQuantity
        env.feeAmountOpt).calculatedQuantity) ≠ 0 →
      env.feeConfig ≠ none →
      (sellExactTokenRun env sale dtoE).errorOf = none →
      ∃ rest, (sellExactTokenRun env sale dtoE).transfers =
        ⟨Party.user, Party.platformFeeAddress, TokenSide.native,
          calculateReverseBondingCurveFee sale ((callNativeTokenOutCalc sale
            dtoE.tokenQuantity env.feeAmountOpt).calculatedQuantity)⟩ :: rest ∧
        (⟨Party.vault, Party.user, TokenSide.native,
          (callNativeTokenOutCalc sale dtoE.tokenQuantity
            env.feeAmountOpt).calculatedQuantity⟩ : TransferRequest) ∈ rest) ∧
     (calculateReverseBondingCurveFee sale ((callNativeTokenOutCalc sale dtoE.tokenQuantity
        env.feeAmountOpt).calculatedQuantity) ≠ 0 →
      env.feeConfig ≠ none →
      env.transferOk ⟨Party.user, Party.platformFeeAddress, TokenSide.native,
        calculateReverseBondingCurveFee sale ((callNativeTokenOutCalc sale
          dtoE.tokenQuantity env.feeAmountOpt).calculatedQuantity)⟩ = false →
      (sellExactTokenRun env sale dtoE).errorOf ≠ none ∧
      ∀ t ∈ (sellExactTokenRun env sale dtoE).transfers, t.sender ≠ Party.vault)) ∧
    ((calculateReverseBondingCurveFee sale dtoN.nativeTokenQuantity ≠ 0 →
      env.feeConfig ≠ none →
      (sellWithNativeRun env sale dtoN).errorOf = none →
      ∃ rest, (sellWithNativeRun env sale dtoN).transfers =
        ⟨Party.user, Party.platformFeeAddress, TokenSide.native,
          calculateReverseBondingCurveFee sale dtoN.nativeTokenQuantity⟩ :: rest ∧
        (⟨Party.vault, Party.user, TokenSide.native,
          dtoN.nativeTokenQuantity⟩ : TransferRequest) ∈ rest) ∧
     (calculateReverseBondingCurveFee sale dtoN.nativeTokenQuantity ≠ 0 →
      env.feeConfig ≠ none →
      env.transferOk ⟨Party.user, Party.platformFeeAddress, TokenSide.native,
        calculateReverseBondingCurveFee sale dtoN.nativeTokenQuantity⟩ = false →
      (sellWithNativeRun env sale dtoN).errorOf ≠ none ∧
      ∀ t ∈ (sellWithNativeRun env sale dtoN).transfers, t.sender ≠ Party.vault)) :=
  ⟨sellExactTokenRun_fee_ordering env sale dtoE,
   sellWithNativeRun_fee_ordering env sale dtoN⟩

/-- Witness for the amended C8 theorem: with the fee portions at 1/10 both
sell paths have a non-zero fee; under the all-accepting environment (whose
fee configuration exists) both runs succeed with the fee transfer first
and the proceeds transfer later, and under the fee-rejecting environment
both runs fail without any transfer out of the vault. -/
theorem c8_reverse_fee_before_proceeds_witness :
    (∃ rest, (sellExactTokenRun allOkEnv c8Sale c8DtoE).transfers =
        ⟨Party.user, Party.platformFeeAddress, TokenSide.native,
          calculateReverseBondingCurveFee c8Sale ((callNativeTokenOutCalc c8Sale
            c8DtoE.tokenQuantity allOkEnv.feeAmountOpt).calculatedQuantity)⟩ :: rest ∧
      (⟨Party.vault, Party.user, TokenSide.native,
        (callNativeTokenOutCalc c8Sale c8DtoE.tokenQuantity
          allOkEnv.feeAmountOpt).calculatedQuantity⟩ : TransferRequest) ∈ rest) ∧
    ((sellExactTokenRun c8BadEnv c8Sale c8DtoE).errorOf ≠ none ∧
      ∀ t ∈ (sellExactTokenRun c8BadEnv c8Sale c8DtoE).transfers,
        t.sender ≠ Party.vault) ∧
    (∃ rest, (sellWithNativeRun allOkEnv c8Sale c8DtoN).transfers =
        ⟨Party.user, Party.platformFeeAddress, TokenSide.native,
          calculateReverseBondingCurveFee c8Sale c8DtoN.nativeTokenQuantity⟩ :: rest ∧
      (⟨Party.vault, Party.user, TokenSide.native,
        c8DtoN.nativeTokenQuantity⟩ : TransferRequest) ∈ rest) ∧
    ((sellWithNativeRun c8BadEnv c8Sale c8DtoN).errorOf ≠ none ∧
      ∀ t ∈ (sellWithNativeRun c8BadEnv c8Sale c8DtoN).transfers,
        t.sender ≠ Party.vault) :=
  ⟨(c8_reverse_fee_before_proceeds allOkEnv c8Sale c8DtoE c8DtoN).1.1
      (by decide) (by decide) (by decide),
   (c8_reverse_fee_before_proceeds c8BadEnv c8Sale c8DtoE c8DtoN).1.2
      (by decide) (by decide) (by decide),
   (c8_reverse_fee_before_proceeds allOkEnv c8Sale c8DtoE c8DtoN).2.1
      (by decide) (by decide) (by decide),
   (c8_reverse_fee_before_proceeds c8BadEnv c8Sale c8DtoE c8DtoN).2.2
      (by decide) (by decide) (by decide)⟩


/-! ## Claim C9: the sell-side vault-balance check -/

/-- A late-stage sale: only 200000 selling tokens left (9.8 million sold),
with 15 native tokens recorded in the vault. -/
def c9Sale : LaunchpadSaleState :=
  { createLaunchpadSale none none none with
      sellingTokenQuantity := 200000
      nativeTokenQuantity := 15 }

/-- The sale state right after buying exactly 1000 tokens on a fresh sale
(the repository's own sell test setup: buy 1000, then sell 100). -/
def c9Sale2 : LaunchpadSaleState :=
  ((buyExactTokenRun allOkEnv (createLaunchpadSale none none none)
    ⟨1000, none, none⟩).stateOf).getD (createLaunchpadSale none none none)

/-- C9: `sellExactToken`'s vault-balance guard compares the *meme-token*
quantity being sold against the vault's *native*-token balance, not the
native payout.  Both directions go wrong.  (a) Overdraw: on `c9Sale`
(vault holds 15 native) selling 12 tokens passes the guard (12 ≤ 15) yet
pays out 18.18559738 native — the run succeeds, executes a vault→seller
transfer exceeding the vault balance, and persists a sale state whose
`nativeTokenQuantity` is negative.  (b) Spurious rejection: after buying
1000 tokens on a fresh sale (vault = 0.0165163 native), selling 100 tokens
is rejected with `ValidationFailed` (100 > 0.0165163) even though the true
payout 0.00165249 is comfortably covered by the vault. -/
theorem c9_vault_balance_check_uses_wrong_quantity :
    ((callNativeTokenOutCalc c9Sale (12:ℚ)
        allOkEnv.feeAmountOpt).calculatedQuantity = 909279869/50000000 ∧
     c9Sale.nativeTokenQuantity <
       (callNativeTokenOutCalc c9Sale (12:ℚ) allOkEnv.feeAmountOpt).calculatedQuantity ∧
     (sellExactTokenRun allOkEnv c9Sale ⟨12, none, none⟩).errorOf = none ∧
     (⟨Party.vault, Party.user, TokenSide.native,
       (callNativeTokenOutCalc c9Sale (12:ℚ) allOkEnv.feeAmountOpt).calculatedQuantity⟩ :
         TransferRequest) ∈ (sellExactTokenRun allOkEnv c9Sale ⟨12, none, none⟩).transfers ∧
     ((sellExactTokenRun allOkEnv c9Sale ⟨12, none, none⟩).stateOf).map
       LaunchpadSaleState.nativeTokenQuantity = some (-159279869/50000000)) ∧
    ((callNativeTokenOutCalc c9Sale2 (100:ℚ)
        allOkEnv.feeAmountOpt).calculatedQuantity ≤ c9Sale2.nativeTokenQuantity ∧
     (sellExactTokenRun allOkEnv c9Sale2 ⟨100, none, none⟩).errorOf =
       some LaunchpadError.validationFailed ∧
     (sellExactTokenRun allOkEnv c9Sale2 ⟨100, none, none⟩).transfers = [] ∧
     (sellExactTokenRun allOkEnv c9Sale2 ⟨100, none, none⟩).writes = []) := by
  decide

/-! ## Claim C10: zero fee amount at initial fee-config setup -/

/-- C10: when no fee configuration exists yet, an initial-setup request
carrying a fee address together with `newFeeAmount = 0` is rejected with
`ValidationFailed` — the guard `!dto.newFeeAmount` treats the in-range
value 0 as missing — while the same request against an existing
configuration (by a listed authority) succeeds and records `feeAmount = 0`. -/
theorem c10_zero_fee_amount_rejected_on_initial_setup
    (dto : ConfigureFeeAddressDto) (addr : String) (callingUser : String)
    (hf : dto.newPlatformFeeAddress = some addr)
    (hz : dto.newFeeAmount = some 0) :
    feeAmountInValidRange 0 ∧
    configureLaunchpadFeeAddress none true callingUser dto =
      Except.error LaunchpadError.validationFailed ∧
    (∀ cfg : LaunchpadFeeConfigState, callingUser ∈ cfg.authorities →
      configureLaunchpadFeeAddress (some cfg) true callingUser dto =
        Except.ok { feeAddress := addr, feeAmount := 0,
                    authorities := dto.newAuthorities.getD cfg.authorities }) := by
  refine ⟨⟨le_refl 0, by norm_num⟩, ?_, ?_⟩
  · simp [configureLaunchpadFeeAddress, hf, hz, jsFalsyNumber]
  · intro cfg hmem
    simp [configureLaunchpadFeeAddress, hf, hz, hmem]

/-- Witness for C10: the concrete dto `⟨some "addr", some 0, none⟩` with
caller `"admin"`: initial setup is rejected, updating the configuration
`⟨"feeAddress", 1/2, ["admin"]⟩` succeeds with fee amount 0. -/
theorem c10_zero_fee_amount_witness :
    (feeAmountInValidRange 0 ∧
      configureLaunchpadFeeAddress none true "admin"
        ⟨some "addr", some 0, none⟩ =
        Except.error LaunchpadError.validationFailed) ∧
    configureLaunchpadFeeAddress (some ⟨"feeAddress", 1/2, ["admin"]⟩) true "admin"
        ⟨some "addr", some 0, none⟩ =
      Except.ok { feeAddress := "addr", feeAmount := 0, authorities := ["admin"] } :=
  have h := c10_zero_fee_amount_rejected_on_initial_setup
    ⟨some "addr", some 0, none⟩ "addr" "admin" rfl rfl
  ⟨⟨h.1, h.2.1⟩, h.2.2 ⟨"feeAddress", 1/2, ["admin"]⟩ (by simp)⟩

end Launchpad